import Mathlib

/-!
Verification of the Skill-Swap platform core: the swap-request lifecycle
state machine (`skill-swap-backend/routes/swaps.js`) and the per-user
notification dispatcher (`skill-swap-backend/services/NotificationService.js`,
`skill-swap-backend/routes/notifications.js`).

The embedding is a shallow one: the Prisma store becomes an explicit `Store`
record threaded through every operation, each Express route handler becomes a
pure function from a store and its inputs to an outcome (`Except ApiErr _`)
and an updated store, and Socket.IO emits become entries appended to a
`pushed` log.  The HTTP status codes of the handlers are refined into the
error taxonomy of the design (`InvalidArgument`/`NotFound`/`Forbidden`/
`InvalidState`, plus `internal` for a handler-level 500): the handlers signal
`InvalidState` with a 400 response whose message names the offending status
("Cannot accept request with status: ..."), which is what distinguishes it
from the 400 used for `InvalidArgument`.

Two environment facts are modelled as `Store` flags:
 * `io`: whether `req.io` is set.  `server.js` installs a middleware that
   always sets `req.io`, so the deployed behaviour is `io = true`; the flag
   is kept because the route code guards every notification under
   `if (req.io)`.
 * `pushOk`: whether a Socket.IO `emit` succeeds.  When an emit throws,
   `NotificationService.createNotification` catches, logs and rethrows, and
   the route handler catch turns it into a 500 (`internal`) response.
-/

deriving instance DecidableEq for Except

namespace SkillSwap

/-- The `SwapStatus` enum of the Prisma schema, as used by the handlers in
`routes/swaps.js`. -/
inductive Status where
  | pending
  | accepted
  | rejected
  | cancelled
  | completed
deriving DecidableEq, Repr

/-- Error taxonomy of the design (§7), refined from the HTTP codes used by the
handlers: 400 on malformed/self/duplicate input is `invalidArgument`, 404 is
`notFound`, 403 is `forbidden`, 400 "Cannot ... request with status: X" is
`invalidState`, and a handler catch-all 500 is `internal`. -/
inductive ApiErr where
  | invalidArgument
  | notFound
  | forbidden
  | invalidState
  | internal
deriving DecidableEq, Repr

/-- The fields of a `User` row consulted by the swap handlers
(`id`, `name`, `isActive`, `isPublic`). -/
structure User where
  id : Nat
  name : String
  isActive : Bool
  isPublic : Bool
deriving DecidableEq, Repr

/-- A `SwapRequest` row: identity, parties, skill labels, optional message,
status and timestamps (`completedAt` is set only on completion). -/
structure SwapRequest where
  id : Nat
  senderId : Nat
  receiverId : Nat
  skillOffered : String
  skillRequested : String
  message : Option String
  status : Status
  createdAt : Nat
  updatedAt : Nat
  completedAt : Option Nat
deriving DecidableEq, Repr

/-- A `Notification` row as created by `NotificationService.createNotification`
(the stringified `data` payload is not modelled; no claim mentions it). -/
structure Notification where
  id : Nat
  userId : Nat
  type : String
  title : String
  message : String
  isRead : Bool
  readAt : Option Nat
  createdAt : Nat
deriving DecidableEq, Repr

/-- An event emitted over a user's Socket.IO room: either a full notification
payload or an unread-count update. -/
inductive PushEvent where
  | note (userId : Nat) (n : Notification)
  | count (userId : Nat) (c : Nat)
deriving DecidableEq, Repr

/-- The world the handlers act on: the Prisma store (users, swap requests,
notifications), a log of live pushes, a fresh-id counter standing for UUID
generation, a clock for `new Date()`, and the two environment flags described
in the file header. -/
structure Store where
  users : List User
  swaps : List SwapRequest
  notifications : List Notification
  pushed : List PushEvent
  nextId : Nat
  now : Nat
  io : Bool
  pushOk : Bool
deriving DecidableEq, Repr

/-- `prisma.user.findUnique({ where: { id } })`. -/
def findUser (st : Store) (uid : Nat) : Option User :=
  st.users.find? (fun u => u.id == uid)

/-- The `name` obtained through a Prisma `include` of the related user. -/
def userName (st : Store) (uid : Nat) : String :=
  match findUser st uid with
  | some u => u.name
  | none => ""

/-- `prisma.swapRequest.findUnique({ where: { id } })`. -/
def findSwap (st : Store) (sid : Nat) : Option SwapRequest :=
  st.swaps.find? (fun r => r.id == sid)

/-- `prisma.notification.count({ where: { userId, isRead: false } })` over a
given table of rows. -/
def countUnread (l : List Notification) (uid : Nat) : Nat :=
  (l.filter (fun n => n.userId == uid && !n.isRead)).length

/-- `NotificationService.getUnreadCount`. -/
def getUnreadCount (st : Store) (uid : Nat) : Nat :=
  countUnread st.notifications uid

/-- Count of a user's unread notifications of one type; the measuring stick
for "each party gains exactly one unread notification of type X". -/
def countUnreadOfType (l : List Notification) (uid : Nat) (ty : String) : Nat :=
  (l.filter (fun n => n.userId == uid && !n.isRead && n.type == ty)).length

/-- Model of the JavaScript `String.prototype.trim` used by the
express-validator sanitizers and by `skillOffered.trim()` in the handlers:
strip leading and trailing whitespace.  (Defined on the character list so that
concrete witnesses evaluate inside the kernel.) -/
def trimString (s : String) : String :=
  ⟨((s.data.dropWhile Char.isWhitespace).reverse.dropWhile Char.isWhitespace).reverse⟩

/-- One successful `io.to(user_<id>).emit(...)`, recorded on the push log. -/
def pushToUser (st : Store) (e : PushEvent) : Store :=
  { st with pushed := st.pushed ++ [e] }

/-- `NotificationService.createNotification`: persists the row with
`isRead: false`, then, if Socket.IO is available, emits the notification and a
freshly recomputed unread count.  A failing emit is caught, logged and
rethrown (`throw error` in the catch), surfaced here as `Except.error ()`
with the row already persisted. -/
def createNotification (st : Store) (uid : Nat) (ty title msg : String) :
    Except Unit Notification × Store :=
  let n : Notification :=
    { id := st.nextId, userId := uid, type := ty, title := title, message := msg,
      isRead := false, readAt := none, createdAt := st.now }
  let st1 := { st with notifications := st.notifications ++ [n], nextId := st.nextId + 1 }
  if st1.io then
    if st1.pushOk then
      let st2 := pushToUser st1 (PushEvent.note uid n)
      let st3 := pushToUser st2 (PushEvent.count uid (getUnreadCount st2 uid))
      (Except.ok n, st3)
    else
      (Except.error (), st1)
  else (Except.ok n, st1)

/-- `NotificationService.notifySwapRequestReceived`. -/
def notifySwapRequestReceived (st : Store) (receiverId : Nat)
    (senderName skillOffered skillRequested : String) : Except Unit Notification × Store :=
  createNotification st receiverId "SWAP_REQUEST_RECEIVED" "New Swap Request"
    (senderName ++ " wants to swap " ++ skillRequested ++ " for your " ++ skillOffered)

/-- `NotificationService.notifySwapRequestAccepted`. -/
def notifySwapRequestAccepted (st : Store) (senderId : Nat)
    (receiverName skillOffered skillRequested : String) : Except Unit Notification × Store :=
  createNotification st senderId "SWAP_REQUEST_ACCEPTED" "Swap Request Accepted! 🎉"
    (receiverName ++ " accepted your request to swap " ++ skillOffered ++ " for " ++ skillRequested)

/-- `NotificationService.notifySwapRequestRejected`. -/
def notifySwapRequestRejected (st : Store) (senderId : Nat)
    (receiverName skillOffered skillRequested : String) : Except Unit Notification × Store :=
  createNotification st senderId "SWAP_REQUEST_REJECTED" "Swap Request Declined"
    (receiverName ++ " declined your request to swap " ++ skillOffered ++ " for " ++ skillRequested)

/-- `NotificationService.notifySwapCompleted`. -/
def notifySwapCompleted (st : Store) (uid : Nat)
    (otherUserName skillOffered skillRequested : String) : Except Unit Notification × Store :=
  createNotification st uid "SWAP_COMPLETED" "Swap Completed! ✨"
    ("Your skill swap with " ++ otherUserName ++
      " has been completed. Don\x27t forget to leave feedback!")

/-- The filter of `prisma.notification.update({ where: { id, userId } })`:
the notification with this id, provided it belongs to this user. -/
def findNotifOwned (st : Store) (nid uid : Nat) : Option Notification :=
  st.notifications.find? (fun n => n.id == nid && n.userId == uid)

/-- `NotificationService.markAsRead` wrapped by `PUT /api/notifications/:id/read`:
Prisma throws `P2025` when no row matches `{ id, userId }` and the route catch
maps that to a 404; otherwise the row's read flag is set, `readAt` stamped, and
the recomputed unread count emitted to the user's room (a failing emit is an
uncaught non-`P2025` error, surfaced as a 500). -/
def markAsRead (st : Store) (nid uid : Nat) : Except ApiErr Notification × Store :=
  match findNotifOwned st nid uid with
  | none => (Except.error ApiErr.notFound, st)
  | some n =>
    let n' := { n with isRead := true, readAt := some st.now }
    let st1 := { st with notifications := st.notifications.map (fun (m : Notification) =>
        if m.id == nid && m.userId == uid then
          { m with isRead := true, readAt := some st.now }
        else m) }
    if st1.io then
      if st1.pushOk then
        (Except.ok n', pushToUser st1 (PushEvent.count uid (getUnreadCount st1 uid)))
      else (Except.error ApiErr.internal, st1)
    else (Except.ok n', st1)

/-- `NotificationService.markAllAsRead` wrapped by
`PUT /api/notifications/mark-all-read`: `updateMany` over the user's unread
rows, then an emit of the literal count `0`. -/
def markAllAsRead (st : Store) (uid : Nat) : Except ApiErr Unit × Store :=
  let st1 := { st with notifications := st.notifications.map (fun (n : Notification) =>
      if n.userId == uid && !n.isRead then
        { n with isRead := true, readAt := some st.now }
      else n) }
  if st1.io then
    if st1.pushOk then (Except.ok (), pushToUser st1 (PushEvent.count uid 0))
    else (Except.error ApiErr.internal, st1)
  else (Except.ok (), st1)

/-- The `try { ... res.json(...) } catch { next(new ApiError(500, ...)) }`
tail of a handler that has already persisted its write and now awaits a
notification: a thrown (rethrown) notification error becomes a 500
(`internal`) response, a clean return reports the updated record. -/
def notifyThen (res : SwapRequest) (p : Except Unit Notification × Store) :
    Except ApiErr SwapRequest × Store :=
  match p with
  | (Except.ok _, st2) => (Except.ok res, st2)
  | (Except.error _, st2) => (Except.error ApiErr.internal, st2)

/-- The `createSwapValidation` chain outcome on the already-sanitized
(trimmed) values: `.notEmpty()` on both skill labels and
`.isLength({ max: 500 })` on the optional message. -/
def validationFails (skillOffered skillRequested : String)
    (message : Option String) : Bool :=
  skillOffered.isEmpty || skillRequested.isEmpty ||
    (match message with
      | some m => decide (500 < m.length)
      | none => false)

/-- The duplicate check of `POST /api/swaps`: a `findFirst` for a `PENDING`
request between the two users matching the skill pair in either direction. -/
def duplicatePending (st : Store) (senderId receiverId : Nat)
    (skillOffered skillRequested : String) : Bool :=
  st.swaps.any (fun r =>
    (r.senderId == senderId && r.receiverId == receiverId &&
      r.skillOffered == skillOffered && r.skillRequested == skillRequested &&
      r.status == Status.pending)
    ||
    (r.senderId == receiverId && r.receiverId == senderId &&
      r.skillOffered == skillRequested && r.skillRequested == skillOffered &&
      r.status == Status.pending))

/-- The `data` object of `prisma.swapRequest.create` in `POST /api/swaps`:
skill labels re-trimmed (a no-op after sanitization) and
`message?.trim() || null` storing an empty message as null. -/
def newSwapRow (st : Store) (senderId receiverId : Nat)
    (skillOffered skillRequested : String) (message : Option String) : SwapRequest :=
  { id := st.nextId, senderId := senderId, receiverId := receiverId,
    skillOffered := trimString skillOffered, skillRequested := trimString skillRequested,
    message := match message with
      | some x => if x.isEmpty then none else some x
      | none => none,
    status := Status.pending, createdAt := st.now, updatedAt := st.now,
    completedAt := none }

/-- `prisma.swapRequest.create`: append the new row (with a fresh id). -/
def insertSwapRow (st : Store) (sw : SwapRequest) : Store :=
  { st with swaps := st.swaps ++ [sw], nextId := st.nextId + 1 }

/-- `POST /api/swaps` (the `submit` operation of §4.1).  The
`createSwapValidation` chain runs first: its `.trim()` entries are
express-validator sanitizers, which replace the values in `req.body`, so the
handler body receives already-trimmed skill labels and message; `.notEmpty()`
and the 500-character message bound then reject with a 400.  The handler then
checks self-request, receiver existence/activity/visibility, and the
duplicate-pending filter, creates the `PENDING` row (re-trimming, a no-op, and
storing an empty message as null via `message?.trim() || null`), and sends the
"request received" notification to the receiver. -/
def submit (st : Store) (senderId receiverId : Nat)
    (skillOffered0 skillRequested0 : String) (message0 : Option String) :
    Except ApiErr SwapRequest × Store :=
  let skillOffered := trimString skillOffered0
  let skillRequested := trimString skillRequested0
  let message := message0.map trimString
  if validationFails skillOffered skillRequested message then
    (Except.error ApiErr.invalidArgument, st)
  else if senderId == receiverId then
    (Except.error ApiErr.invalidArgument, st)
  else
    match findUser st receiverId with
    | none => (Except.error ApiErr.notFound, st)
    | some receiver =>
      if !receiver.isActive then (Except.error ApiErr.invalidArgument, st)
      else if !receiver.isPublic then (Except.error ApiErr.invalidArgument, st)
      else if duplicatePending st senderId receiverId skillOffered skillRequested then
        (Except.error ApiErr.invalidArgument, st)
      else
        let swap := newSwapRow st senderId receiverId skillOffered skillRequested message
        let st1 := insertSwapRow st swap
        if st1.io then
          notifyThen swap (notifySwapRequestReceived st1 receiverId (userName st1 senderId)
            skillOffered skillRequested)
        else (Except.ok swap, st1)

/-- The read phase of `PUT /api/swaps/:id/accept`: `findUnique` followed by
the not-found, receiver-only and pending-only checks, with no write. -/
def acceptGuard (st : Store) (swapId callerId : Nat) : Except ApiErr SwapRequest :=
  match findSwap st swapId with
  | none => Except.error ApiErr.notFound
  | some r =>
    if r.receiverId != callerId then Except.error ApiErr.forbidden
    else if r.status != Status.pending then Except.error ApiErr.invalidState
    else Except.ok r

/-- The read phase of `PUT /api/swaps/:id/reject`. -/
def rejectGuard (st : Store) (swapId callerId : Nat) : Except ApiErr SwapRequest :=
  match findSwap st swapId with
  | none => Except.error ApiErr.notFound
  | some r =>
    if r.receiverId != callerId then Except.error ApiErr.forbidden
    else if r.status != Status.pending then Except.error ApiErr.invalidState
    else Except.ok r

/-- The read phase of `PUT /api/swaps/:id/cancel`: sender-only. -/
def cancelGuard (st : Store) (swapId callerId : Nat) : Except ApiErr SwapRequest :=
  match findSwap st swapId with
  | none => Except.error ApiErr.notFound
  | some r =>
    if r.senderId != callerId then Except.error ApiErr.forbidden
    else if r.status != Status.pending then Except.error ApiErr.invalidState
    else Except.ok r

/-- The read phase of `PUT /api/swaps/:id/complete`: either party may call,
and the status must be `ACCEPTED`. -/
def completeGuard (st : Store) (swapId callerId : Nat) : Except ApiErr SwapRequest :=
  match findSwap st swapId with
  | none => Except.error ApiErr.notFound
  | some r =>
    if r.senderId != callerId && r.receiverId != callerId then Except.error ApiErr.forbidden
    else if r.status != Status.accepted then Except.error ApiErr.invalidState
    else Except.ok r

/-- `prisma.swapRequest.update({ where: { id }, data: ... })`: apply `g` to
the row with this id.  The `where` clause names only the id — the update is
unconditional on the current status. -/
def updateSwapRow (st : Store) (swapId : Nat) (g : SwapRequest → SwapRequest) : Store :=
  { st with swaps := st.swaps.map (fun (r : SwapRequest) =>
      if r.id == swapId then g r else r) }

/-- The write phase of accept/reject/cancel:
`update({ where: { id }, data: { status, updatedAt } })`. -/
def writeSwapStatus (st : Store) (swapId : Nat) (s : Status) : Store :=
  updateSwapRow st swapId (fun r => { r with status := s, updatedAt := st.now })

/-- `PUT /api/swaps/:id/accept`: guard, unguarded status write, then the
"request accepted" notification to the sender. -/
def accept (st : Store) (swapId callerId : Nat) : Except ApiErr SwapRequest × Store :=
  match acceptGuard st swapId callerId with
  | Except.error e => (Except.error e, st)
  | Except.ok r =>
    let r' := { r with status := Status.accepted, updatedAt := st.now }
    let st1 := writeSwapStatus st swapId Status.accepted
    if st1.io then
      notifyThen r' (notifySwapRequestAccepted st1 r.senderId (userName st1 r.receiverId)
        r.skillOffered r.skillRequested)
    else (Except.ok r', st1)

/-- `PUT /api/swaps/:id/reject`: guard, unguarded status write, then the
"request declined" notification to the sender. -/
def reject (st : Store) (swapId callerId : Nat) : Except ApiErr SwapRequest × Store :=
  match rejectGuard st swapId callerId with
  | Except.error e => (Except.error e, st)
  | Except.ok r =>
    let r' := { r with status := Status.rejected, updatedAt := st.now }
    let st1 := writeSwapStatus st swapId Status.rejected
    if st1.io then
      notifyThen r' (notifySwapRequestRejected st1 r.senderId (userName st1 r.receiverId)
        r.skillOffered r.skillRequested)
    else (Except.ok r', st1)

/-- `PUT /api/swaps/:id/cancel`: guard then unguarded status write; the cancel
handler sends no notification. -/
def cancel (st : Store) (swapId callerId : Nat) : Except ApiErr SwapRequest × Store :=
  match cancelGuard st swapId callerId with
  | Except.error e => (Except.error e, st)
  | Except.ok r =>
    (Except.ok { r with status := Status.cancelled, updatedAt := st.now },
      writeSwapStatus st swapId Status.cancelled)

/-- `PUT /api/swaps/:id/complete`: guard, status write stamping `completedAt`,
then one "swap completed" notification to each party (sender first), each
framed with the other party's name and with the skill pair seen from the
recipient's side. -/
def complete (st : Store) (swapId callerId : Nat) : Except ApiErr SwapRequest × Store :=
  match completeGuard st swapId callerId with
  | Except.error e => (Except.error e, st)
  | Except.ok r =>
    let r' := { r with status := Status.completed, completedAt := some st.now,
                        updatedAt := st.now }
    let st1 := updateSwapRow st swapId (fun x =>
      { x with status := Status.completed, completedAt := some st.now,
               updatedAt := st.now })
    if st1.io then
      match notifySwapCompleted st1 r.senderId (userName st1 r.receiverId)
          r.skillOffered r.skillRequested with
      | (Except.error _, st2) => (Except.error ApiErr.internal, st2)
      | (Except.ok _, st2) =>
        notifyThen r' (notifySwapCompleted st2 r.receiverId (userName st2 r.senderId)
          r.skillRequested r.skillOffered)
    else (Except.ok r', st1)

/-- The five lifecycle operations of §4.1, as one action type. -/
inductive Op where
  | submit (senderId receiverId : Nat) (skillOffered skillRequested : String)
      (message : Option String)
  | accept (swapId callerId : Nat)
  | reject (swapId callerId : Nat)
  | cancel (swapId callerId : Nat)
  | complete (swapId callerId : Nat)
deriving DecidableEq, Repr

/-- Dispatch of one lifecycle operation. -/
def runOp (st : Store) : Op → Except ApiErr SwapRequest × Store
  | Op.submit a b so sr m => submit st a b so sr m
  | Op.accept sid c => accept st sid c
  | Op.reject sid c => reject st sid c
  | Op.cancel sid c => cancel st sid c
  | Op.complete sid c => complete st sid c

/-- The transition edges admitted by §4.1:
`PENDING → {ACCEPTED, REJECTED, CANCELLED}` and `ACCEPTED → COMPLETED`. -/
def allowedEdge : Status → Status → Bool
  | Status.pending, Status.accepted => true
  | Status.pending, Status.rejected => true
  | Status.pending, Status.cancelled => true
  | Status.accepted, Status.completed => true
  | _, _ => false

/-- For the four transition operations: the swap id, the caller, and the
target status of the attempted edge. -/
def transitionInfo : Op → Option (Nat × Nat × Status)
  | Op.accept sid c => some (sid, c, Status.accepted)
  | Op.reject sid c => some (sid, c, Status.rejected)
  | Op.cancel sid c => some (sid, c, Status.cancelled)
  | Op.complete sid c => some (sid, c, Status.completed)
  | _ => none

/-- Whether the caller holds the role the handler demands for the operation:
receiver for accept/reject, sender for cancel, either party for complete. -/
def authorizedCaller : Op → SwapRequest → Bool
  | Op.accept _ c, r => r.receiverId == c
  | Op.reject _ c, r => r.receiverId == c
  | Op.cancel _ c, r => r.senderId == c
  | Op.complete _ c, r => r.senderId == c || r.receiverId == c
  | Op.submit _ _ _ _ _, _ => true

/-- One interleaving of a concurrent accept and reject on the same record:
each handler performs its read phase (`findUnique` + guards) before either
write runs, then the two unguarded updates land in order (accept first).  The
success verdict of each call is the verdict of its guard, as in the handlers
(the follow-up notifications do not change the verdict when pushes succeed). -/
def raceAcceptReject (st : Store) (swapId acceptCaller rejectCaller : Nat) :
    (Except ApiErr Unit × Except ApiErr Unit) × Store :=
  match acceptGuard st swapId acceptCaller, rejectGuard st swapId rejectCaller with
  | Except.ok _, Except.ok _ =>
    let st1 := writeSwapStatus st swapId Status.accepted
    let st2 := writeSwapStatus st1 swapId Status.rejected
    ((Except.ok (), Except.ok ()), st2)
  | Except.ok _, Except.error e =>
    ((Except.ok (), Except.error e), writeSwapStatus st swapId Status.accepted)
  | Except.error e, Except.ok _ =>
    ((Except.error e, Except.ok ()), writeSwapStatus st swapId Status.rejected)
  | Except.error e1, Except.error e2 => ((Except.error e1, Except.error e2), st)

/-! ### Store-shape lemmas -/

@[simp]
theorem updateSwapRow_notifications (st : Store) (sid : Nat) (g : SwapRequest → SwapRequest) :
    (updateSwapRow st sid g).notifications = st.notifications := rfl

@[simp]
theorem updateSwapRow_users (st : Store) (sid : Nat) (g : SwapRequest → SwapRequest) :
    (updateSwapRow st sid g).users = st.users := rfl

@[simp]
theorem updateSwapRow_pushed (st : Store) (sid : Nat) (g : SwapRequest → SwapRequest) :
    (updateSwapRow st sid g).pushed = st.pushed := rfl

@[simp]
theorem updateSwapRow_io (st : Store) (sid : Nat) (g : SwapRequest → SwapRequest) :
    (updateSwapRow st sid g).io = st.io := rfl

@[simp]
theorem updateSwapRow_pushOk (st : Store) (sid : Nat) (g : SwapRequest → SwapRequest) :
    (updateSwapRow st sid g).pushOk = st.pushOk := rfl

@[simp]
theorem updateSwapRow_now (st : Store) (sid : Nat) (g : SwapRequest → SwapRequest) :
    (updateSwapRow st sid g).now = st.now := rfl

@[simp]
theorem updateSwapRow_nextId (st : Store) (sid : Nat) (g : SwapRequest → SwapRequest) :
    (updateSwapRow st sid g).nextId = st.nextId := rfl

theorem notifyThen_snd (res : SwapRequest) (p : Except Unit Notification × Store) :
    (notifyThen res p).2 = p.2 := by
  rcases p with ⟨a, st2⟩
  cases a <;> rfl

theorem notifyThen_fst (res : SwapRequest) (p : Except Unit Notification × Store) :
    (notifyThen res p).1 = Except.ok res ∨ (notifyThen res p).1 = Except.error ApiErr.internal := by
  rcases p with ⟨a, st2⟩
  cases a
  · exact Or.inr rfl
  · exact Or.inl rfl

theorem createNotification_snd_swaps (st : Store) (uid : Nat) (ty ti m : String) :
    (createNotification st uid ty ti m).2.swaps = st.swaps := by
  simp only [createNotification, pushToUser]
  split <;> first | (split <;> rfl) | rfl

theorem createNotification_snd_users (st : Store) (uid : Nat) (ty ti m : String) :
    (createNotification st uid ty ti m).2.users = st.users := by
  simp only [createNotification, pushToUser]
  split <;> first | (split <;> rfl) | rfl

theorem createNotification_snd_io (st : Store) (uid : Nat) (ty ti m : String) :
    (createNotification st uid ty ti m).2.io = st.io := by
  simp only [createNotification, pushToUser]
  split <;> first | (split <;> rfl) | rfl

theorem createNotification_snd_pushOk (st : Store) (uid : Nat) (ty ti m : String) :
    (createNotification st uid ty ti m).2.pushOk = st.pushOk := by
  simp only [createNotification, pushToUser]
  split <;> first | (split <;> rfl) | rfl

theorem createNotification_snd_now (st : Store) (uid : Nat) (ty ti m : String) :
    (createNotification st uid ty ti m).2.now = st.now := by
  simp only [createNotification, pushToUser]
  split <;> first | (split <;> rfl) | rfl

theorem createNotification_snd_notifications (st : Store) (uid : Nat) (ty ti m : String) :
    (createNotification st uid ty ti m).2.notifications = st.notifications ++
      [{ id := st.nextId, userId := uid, type := ty, title := ti, message := m,
         isRead := false, readAt := none, createdAt := st.now }] := by
  simp only [createNotification, pushToUser]
  split <;> first | (split <;> rfl) | rfl

theorem createNotification_fst_of_push_ok (st : Store) (uid : Nat) (ty ti m : String)
    (hio : st.io = true) (hpush : st.pushOk = true) :
    (createNotification st uid ty ti m).1 = Except.ok
      { id := st.nextId, userId := uid, type := ty, title := ti, message := m,
        isRead := false, readAt := none, createdAt := st.now } := by
  unfold createNotification pushToUser
  simp [hio, hpush]

theorem countUnread_append (l1 l2 : List Notification) (uid : Nat) :
    countUnread (l1 ++ l2) uid = countUnread l1 uid + countUnread l2 uid := by
  simp [countUnread, List.filter_append]

theorem countUnread_singleton (n : Notification) (uid : Nat) :
    countUnread [n] uid = if n.userId == uid && !n.isRead then 1 else 0 := by
  simp only [countUnread, List.filter]
  cases h : (n.userId == uid && !n.isRead) <;> simp [h]

theorem countUnreadOfType_append (l1 l2 : List Notification) (uid : Nat) (ty : String) :
    countUnreadOfType (l1 ++ l2) uid ty =
      countUnreadOfType l1 uid ty + countUnreadOfType l2 uid ty := by
  simp [countUnreadOfType, List.filter_append]

theorem countUnreadOfType_singleton (n : Notification) (uid : Nat) (ty : String) :
    countUnreadOfType [n] uid ty =
      if n.userId == uid && !n.isRead && n.type == ty then 1 else 0 := by
  simp only [countUnreadOfType, List.filter]
  cases h : (n.userId == uid && !n.isRead && n.type == ty) <;> simp [h]

theorem find?_map_key (l : List SwapRequest) (sid id : Nat) (g : SwapRequest → SwapRequest)
    (hg : ∀ r, (g r).id = r.id) :
    List.find? (fun r => r.id == id) (l.map (fun r => if r.id == sid then g r else r)) =
      (List.find? (fun r => r.id == id) l).map (fun r => if r.id == sid then g r else r) := by
  induction l with
  | nil => rfl
  | cons a l ih =>
    have hkey : (if (a.id == sid) = true then g a else a).id = a.id := by
      by_cases h : (a.id == sid) = true
      · rw [if_pos h]; exact hg a
      · rw [if_neg h]
    simp only [List.map_cons, List.find?_cons]
    rw [hkey]
    cases hid : (a.id == id)
    · exact ih
    · rfl

theorem findSwap_updateSwapRow (st : Store) (sid : Nat) (g : SwapRequest → SwapRequest)
    (hg : ∀ r, (g r).id = r.id) (id : Nat) :
    findSwap (updateSwapRow st sid g) id =
      (findSwap st id).map (fun r => if r.id == sid then g r else r) := by
  unfold findSwap updateSwapRow
  exact find?_map_key st.swaps sid id g hg

theorem findSwap_append (st : Store) (l : List SwapRequest) (id : Nat) :
    List.find? (fun r => r.id == id) (st.swaps ++ l) =
      (findSwap st id).or (List.find? (fun r => r.id == id) l) := by
  unfold findSwap
  exact List.find?_append

theorem findSwap_id {st : Store} {id : Nat} {r : SwapRequest}
    (h : findSwap st id = some r) : r.id = id := by
  have := List.find?_some h
  simpa using this

/-! ### Guard characterizations -/

theorem acceptGuard_ok {st : Store} {sid c : Nat} {r : SwapRequest}
    (h : acceptGuard st sid c = Except.ok r) :
    findSwap st sid = some r ∧ r.receiverId = c ∧ r.status = Status.pending := by
  unfold acceptGuard at h
  cases hf : findSwap st sid <;> rw [hf] at h <;> dsimp only at h
  · exact Except.noConfusion h
  · rename_i q
    by_cases h1 : (q.receiverId != c) = true
    · rw [if_pos h1] at h; exact Except.noConfusion h
    · rw [if_neg h1] at h
      by_cases h2 : (q.status != Status.pending) = true
      · rw [if_pos h2] at h; exact Except.noConfusion h
      · rw [if_neg h2] at h
        have hqr : q = r := by injection h
        subst hqr
        simp only [bne_iff_ne, ne_eq, not_not] at h1 h2
        exact ⟨rfl, h1, h2⟩

theorem rejectGuard_ok {st : Store} {sid c : Nat} {r : SwapRequest}
    (h : rejectGuard st sid c = Except.ok r) :
    findSwap st sid = some r ∧ r.receiverId = c ∧ r.status = Status.pending := by
  unfold rejectGuard at h
  cases hf : findSwap st sid <;> rw [hf] at h <;> dsimp only at h
  · exact Except.noConfusion h
  · rename_i q
    by_cases h1 : (q.receiverId != c) = true
    · rw [if_pos h1] at h; exact Except.noConfusion h
    · rw [if_neg h1] at h
      by_cases h2 : (q.status != Status.pending) = true
      · rw [if_pos h2] at h; exact Except.noConfusion h
      · rw [if_neg h2] at h
        have hqr : q = r := by injection h
        subst hqr
        simp only [bne_iff_ne, ne_eq, not_not] at h1 h2
        exact ⟨rfl, h1, h2⟩

theorem cancelGuard_ok {st : Store} {sid c : Nat} {r : SwapRequest}
    (h : cancelGuard st sid c = Except.ok r) :
    findSwap st sid = some r ∧ r.senderId = c ∧ r.status = Status.pending := by
  unfold cancelGuard at h
  cases hf : findSwap st sid <;> rw [hf] at h <;> dsimp only at h
  · exact Except.noConfusion h
  · rename_i q
    by_cases h1 : (q.senderId != c) = true
    · rw [if_pos h1] at h; exact Except.noConfusion h
    · rw [if_neg h1] at h
      by_cases h2 : (q.status != Status.pending) = true
      · rw [if_pos h2] at h; exact Except.noConfusion h
      · rw [if_neg h2] at h
        have hqr : q = r := by injection h
        subst hqr
        simp only [bne_iff_ne, ne_eq, not_not] at h1 h2
        exact ⟨rfl, h1, h2⟩

theorem completeGuard_ok {st : Store} {sid c : Nat} {r : SwapRequest}
    (h : completeGuard st sid c = Except.ok r) :
    findSwap st sid = some r ∧ (r.senderId = c ∨ r.receiverId = c) ∧
      r.status = Status.accepted := by
  unfold completeGuard at h
  cases hf : findSwap st sid <;> rw [hf] at h <;> dsimp only at h
  · exact Except.noConfusion h
  · rename_i q
    by_cases h1 : (q.senderId != c && q.receiverId != c) = true
    · rw [if_pos h1] at h; exact Except.noConfusion h
    · rw [if_neg h1] at h
      by_cases h2 : (q.status != Status.accepted) = true
      · rw [if_pos h2] at h; exact Except.noConfusion h
      · rw [if_neg h2] at h
        have hqr : q = r := by injection h
        subst hqr
        simp only [Bool.and_eq_true, bne_iff_ne, ne_eq, not_and, not_not] at h1
        simp only [bne_iff_ne, ne_eq, not_not] at h2
        refine ⟨rfl, ?_, h2⟩
        by_cases hs : q.senderId = c
        · exact Or.inl hs
        · exact Or.inr (h1 hs)

theorem acceptGuard_invalidState {st : Store} {sid c : Nat} {r : SwapRequest}
    (hf : findSwap st sid = some r) (hrecv : r.receiverId = c)
    (hstat : r.status ≠ Status.pending) :
    acceptGuard st sid c = Except.error ApiErr.invalidState := by
  unfold acceptGuard
  rw [hf]
  dsimp only
  rw [if_neg (by simp [hrecv]), if_pos (by simp [hstat])]

theorem rejectGuard_invalidState {st : Store} {sid c : Nat} {r : SwapRequest}
    (hf : findSwap st sid = some r) (hrecv : r.receiverId = c)
    (hstat : r.status ≠ Status.pending) :
    rejectGuard st sid c = Except.error ApiErr.invalidState := by
  unfold rejectGuard
  rw [hf]
  dsimp only
  rw [if_neg (by simp [hrecv]), if_pos (by simp [hstat])]

theorem cancelGuard_invalidState {st : Store} {sid c : Nat} {r : SwapRequest}
    (hf : findSwap st sid = some r) (hsend : r.senderId = c)
    (hstat : r.status ≠ Status.pending) :
    cancelGuard st sid c = Except.error ApiErr.invalidState := by
  unfold cancelGuard
  rw [hf]
  dsimp only
  rw [if_neg (by simp [hsend]), if_pos (by simp [hstat])]

theorem completeGuard_invalidState {st : Store} {sid c : Nat} {r : SwapRequest}
    (hf : findSwap st sid = some r) (hpart : r.senderId = c ∨ r.receiverId = c)
    (hstat : r.status ≠ Status.accepted) :
    completeGuard st sid c = Except.error ApiErr.invalidState := by
  unfold completeGuard
  have hcond : ¬((r.senderId != c && r.receiverId != c) = true) := by
    rcases hpart with h | h <;> simp [h]
  rw [hf]
  dsimp only
  rw [if_neg hcond, if_pos (by simp [hstat])]

/-! ### Operation shapes -/

theorem accept_of_guard_error {st : Store} {sid c : Nat} {e : ApiErr}
    (h : acceptGuard st sid c = Except.error e) :
    accept st sid c = (Except.error e, st) := by
  unfold accept
  rw [h]

theorem reject_of_guard_error {st : Store} {sid c : Nat} {e : ApiErr}
    (h : rejectGuard st sid c = Except.error e) :
    reject st sid c = (Except.error e, st) := by
  unfold reject
  rw [h]

theorem cancel_of_guard_error {st : Store} {sid c : Nat} {e : ApiErr}
    (h : cancelGuard st sid c = Except.error e) :
    cancel st sid c = (Except.error e, st) := by
  unfold cancel
  rw [h]

theorem complete_of_guard_error {st : Store} {sid c : Nat} {e : ApiErr}
    (h : completeGuard st sid c = Except.error e) :
    complete st sid c = (Except.error e, st) := by
  unfold complete
  rw [h]

theorem cancel_of_guard_ok {st : Store} {sid c : Nat} {r : SwapRequest}
    (h : cancelGuard st sid c = Except.ok r) :
    cancel st sid c = (Except.ok { r with status := Status.cancelled, updatedAt := st.now },
      writeSwapStatus st sid Status.cancelled) := by
  unfold cancel
  rw [h]

theorem accept_of_guard_ok {st : Store} {sid c : Nat} {r : SwapRequest}
    (h : acceptGuard st sid c = Except.ok r) :
    (accept st sid c).2.swaps = (writeSwapStatus st sid Status.accepted).swaps ∧
    ((accept st sid c).1 = Except.ok { r with status := Status.accepted, updatedAt := st.now } ∨
      (accept st sid c).1 = Except.error ApiErr.internal) := by
  unfold accept
  rw [h]
  dsimp only
  by_cases hio : st.io = true
  · rw [if_pos (show (writeSwapStatus st sid Status.accepted).io = true from hio)]
    constructor
    · rw [notifyThen_snd]
      unfold notifySwapRequestAccepted
      exact createNotification_snd_swaps _ _ _ _ _
    · exact notifyThen_fst _ _
  · rw [if_neg (show ¬(writeSwapStatus st sid Status.accepted).io = true from hio)]
    exact ⟨rfl, Or.inl rfl⟩

theorem reject_of_guard_ok {st : Store} {sid c : Nat} {r : SwapRequest}
    (h : rejectGuard st sid c = Except.ok r) :
    (reject st sid c).2.swaps = (writeSwapStatus st sid Status.rejected).swaps ∧
    ((reject st sid c).1 = Except.ok { r with status := Status.rejected, updatedAt := st.now } ∨
      (reject st sid c).1 = Except.error ApiErr.internal) := by
  unfold reject
  rw [h]
  dsimp only
  by_cases hio : st.io = true
  · rw [if_pos (show (writeSwapStatus st sid Status.rejected).io = true from hio)]
    constructor
    · rw [notifyThen_snd]
      unfold notifySwapRequestRejected
      exact createNotification_snd_swaps _ _ _ _ _
    · exact notifyThen_fst _ _
  · rw [if_neg (show ¬(writeSwapStatus st sid Status.rejected).io = true from hio)]
    exact ⟨rfl, Or.inl rfl⟩

theorem complete_of_guard_ok {st : Store} {sid c : Nat} {r : SwapRequest}
    (h : completeGuard st sid c = Except.ok r) :
    (complete st sid c).2.swaps = (updateSwapRow st sid (fun x =>
        { x with status := Status.completed, completedAt := some st.now,
                 updatedAt := st.now })).swaps ∧
    ((complete st sid c).1 =
        Except.ok { r with status := Status.completed, completedAt := some st.now,
                           updatedAt := st.now } ∨
      (complete st sid c).1 = Except.error ApiErr.internal) := by
  unfold complete
  rw [h]
  dsimp only
  by_cases hio : st.io = true
  · rw [if_pos (show (updateSwapRow st sid _).io = true from hio)]
    rcases hn1 : notifySwapCompleted (updateSwapRow st sid (fun x =>
        { x with status := Status.completed, completedAt := some st.now,
                 updatedAt := st.now })) r.senderId
        (userName (updateSwapRow st sid (fun x =>
          { x with status := Status.completed, completedAt := some st.now,
                   updatedAt := st.now })) r.receiverId)
        r.skillOffered r.skillRequested with ⟨a, st2⟩
    have hst2 : st2.swaps = (updateSwapRow st sid (fun x =>
        { x with status := Status.completed, completedAt := some st.now,
                 updatedAt := st.now })).swaps := by
      have hx := createNotification_snd_swaps (updateSwapRow st sid (fun x =>
        { x with status := Status.completed, completedAt := some st.now,
                 updatedAt := st.now })) r.senderId "SWAP_COMPLETED" "Swap Completed! ✨"
        ("Your skill swap with " ++ (userName (updateSwapRow st sid (fun x =>
          { x with status := Status.completed, completedAt := some st.now,
                   updatedAt := st.now })) r.receiverId) ++
          " has been completed. Don\x27t forget to leave feedback!")
      rw [show notifySwapCompleted (updateSwapRow st sid (fun x =>
        { x with status := Status.completed, completedAt := some st.now,
                 updatedAt := st.now })) r.senderId
        (userName (updateSwapRow st sid (fun x =>
          { x with status := Status.completed, completedAt := some st.now,
                   updatedAt := st.now })) r.receiverId)
        r.skillOffered r.skillRequested = createNotification (updateSwapRow st sid (fun x =>
        { x with status := Status.completed, completedAt := some st.now,
                 updatedAt := st.now })) r.senderId "SWAP_COMPLETED" "Swap Completed! ✨"
        ("Your skill swap with " ++ (userName (updateSwapRow st sid (fun x =>
          { x with status := Status.completed, completedAt := some st.now,
                   updatedAt := st.now })) r.receiverId) ++
          " has been completed. Don\x27t forget to leave feedback!") from rfl] at hn1
      rw [hn1] at hx
      exact hx
    cases a with
    | error u => exact ⟨hst2, Or.inr rfl⟩
    | ok n1 =>
      constructor
      · rw [notifyThen_snd]
        have hx := createNotification_snd_swaps st2 r.receiverId "SWAP_COMPLETED"
          "Swap Completed! ✨"
          ("Your skill swap with " ++ (userName st2 r.senderId) ++
            " has been completed. Don\x27t forget to leave feedback!")
        rw [show notifySwapCompleted st2 r.receiverId (userName st2 r.senderId)
          r.skillRequested r.skillOffered = createNotification st2 r.receiverId
          "SWAP_COMPLETED" "Swap Completed! ✨"
          ("Your skill swap with " ++ (userName st2 r.senderId) ++
            " has been completed. Don\x27t forget to leave feedback!") from rfl]
        rw [hx, hst2]
      · exact notifyThen_fst _ _
  · rw [if_neg (show ¬(updateSwapRow st sid _).io = true from hio)]
    exact ⟨rfl, Or.inl rfl⟩

/-! ### Submit shapes -/

theorem submit_self {st : Store} {A B : Nat} {so sr : String} {m : Option String}
    (hAB : A = B) :
    submit st A B so sr m = (Except.error ApiErr.invalidArgument, st) := by
  unfold submit
  dsimp only
  split
  · rfl
  · rw [if_pos (by simp [hAB])]

theorem submit_receiver_missing {st : Store} {A B : Nat} {so sr : String} {m : Option String}
    (hval : validationFails (trimString so) (trimString sr) (m.map trimString) = false)
    (hne : ¬A = B) (habs : findUser st B = none) :
    submit st A B so sr m = (Except.error ApiErr.notFound, st) := by
  unfold submit
  dsimp only
  rw [if_neg (by simp [hval]), if_neg (by simp [hne]), habs]

theorem submit_blocked {st : Store} {A B : Nat} {so sr : String} {m : Option String}
    {u : User} (hrecv : findUser st B = some u)
    (hbad : u.isActive = false ∨ u.isPublic = false ∨
      duplicatePending st A B (trimString so) (trimString sr) = true) :
    submit st A B so sr m = (Except.error ApiErr.invalidArgument, st) := by
  unfold submit
  dsimp only
  split
  · rfl
  · split
    · rfl
    · rw [hrecv]
      dsimp only
      by_cases ha : u.isActive = true
      · rw [if_neg (by simp [ha])]
        by_cases hp : u.isPublic = true
        · rw [if_neg (by simp [hp])]
          have hd : duplicatePending st A B (trimString so) (trimString sr) = true := by
            rcases hbad with h | h | h
            · rw [ha] at h; exact Bool.noConfusion h
            · rw [hp] at h; exact Bool.noConfusion h
            · exact h
          rw [if_pos hd]
        · have hp' : u.isPublic = false := by
            cases hu : u.isPublic
            · rfl
            · exact absurd hu hp
          rw [if_pos (by simp [hp'])]
      · have ha' : u.isActive = false := by
          cases hu : u.isActive
          · rfl
          · exact absurd hu ha
        rw [if_pos (by simp [ha'])]

theorem insertSwapRow_io (st : Store) (sw : SwapRequest) :
    (insertSwapRow st sw).io = st.io := rfl

theorem submit_success {st : Store} {A B : Nat} {so sr : String} {m : Option String}
    {u : User}
    (hio : st.io = true) (hpush : st.pushOk = true)
    (hval : validationFails (trimString so) (trimString sr) (m.map trimString) = false)
    (hne : ¬A = B)
    (hrecv : findUser st B = some u) (hact : u.isActive = true) (hpub : u.isPublic = true)
    (hdup : duplicatePending st A B (trimString so) (trimString sr) = false) :
    (submit st A B so sr m).1 =
      Except.ok (newSwapRow st A B (trimString so) (trimString sr) (m.map trimString)) ∧
    (submit st A B so sr m).2.swaps =
      st.swaps ++ [newSwapRow st A B (trimString so) (trimString sr) (m.map trimString)] ∧
    (submit st A B so sr m).2.notifications = st.notifications ++
      [{ id := st.nextId + 1, userId := B, type := "SWAP_REQUEST_RECEIVED",
         title := "New Swap Request",
         message := userName st A ++ " wants to swap " ++ trimString sr ++ " for your " ++ trimString so,
         isRead := false, readAt := none, createdAt := st.now }] := by
  unfold submit
  dsimp only
  rw [if_neg (by simp [hval]), if_neg (by simp [hne]), hrecv]
  dsimp only
  rw [if_neg (by simp [hact]), if_neg (by simp [hpub]), if_neg (by simp [hdup]),
    if_pos (show (insertSwapRow st
      (newSwapRow st A B (trimString so) (trimString sr) (m.map trimString))).io = true from hio)]
  unfold notifySwapRequestReceived
  rcases hcn : createNotification
      (insertSwapRow st (newSwapRow st A B (trimString so) (trimString sr) (m.map trimString))) B
      "SWAP_REQUEST_RECEIVED" "New Swap Request"
      (userName (insertSwapRow st (newSwapRow st A B (trimString so) (trimString sr) (m.map trimString))) A ++
        " wants to swap " ++ trimString sr ++ " for your " ++ trimString so)
      with ⟨a, st2⟩
  have hfst := createNotification_fst_of_push_ok
      (insertSwapRow st (newSwapRow st A B (trimString so) (trimString sr) (m.map trimString))) B
      "SWAP_REQUEST_RECEIVED" "New Swap Request"
      (userName (insertSwapRow st (newSwapRow st A B (trimString so) (trimString sr) (m.map trimString))) A ++
        " wants to swap " ++ trimString sr ++ " for your " ++ trimString so)
      hio hpush
  have hsnd := createNotification_snd_swaps
      (insertSwapRow st (newSwapRow st A B (trimString so) (trimString sr) (m.map trimString))) B
      "SWAP_REQUEST_RECEIVED" "New Swap Request"
      (userName (insertSwapRow st (newSwapRow st A B (trimString so) (trimString sr) (m.map trimString))) A ++
        " wants to swap " ++ trimString sr ++ " for your " ++ trimString so)
  have hnot := createNotification_snd_notifications
      (insertSwapRow st (newSwapRow st A B (trimString so) (trimString sr) (m.map trimString))) B
      "SWAP_REQUEST_RECEIVED" "New Swap Request"
      (userName (insertSwapRow st (newSwapRow st A B (trimString so) (trimString sr) (m.map trimString))) A ++
        " wants to swap " ++ trimString sr ++ " for your " ++ trimString so)
  rw [hcn] at hfst hsnd hnot
  cases a with
  | error u2 => exact absurd hfst (by simp)
  | ok n1 =>
    refine ⟨rfl, ?_, ?_⟩
    · exact hsnd
    · exact hnot

/-! ### Notification-side lemmas -/

@[simp]
theorem pushToUser_notifications (st : Store) (e : PushEvent) :
    (pushToUser st e).notifications = st.notifications := rfl

@[simp]
theorem pushToUser_swaps (st : Store) (e : PushEvent) :
    (pushToUser st e).swaps = st.swaps := rfl

theorem getUnreadCount_eq (st : Store) (uid : Nat) :
    getUnreadCount st uid = countUnread st.notifications uid := rfl

theorem markAll_filter_false (uid : Nat) (t : Nat) (a : Notification) :
    ((if (a.userId == uid && !a.isRead) = true then
        ({ a with isRead := true, readAt := some t } : Notification) else a).userId == uid &&
      !(if (a.userId == uid && !a.isRead) = true then
        ({ a with isRead := true, readAt := some t } : Notification) else a).isRead) = false := by
  by_cases h : (a.userId == uid && !a.isRead) = true
  · rw [if_pos h]
    simp
  · rw [if_neg h]
    exact Bool.eq_false_iff.mpr h

theorem markAll_filter_nil (l : List Notification) (uid : Nat) (t : Nat) :
    (l.map (fun (n : Notification) => if n.userId == uid && !n.isRead then
      { n with isRead := true, readAt := some t } else n)).filter
      (fun n => n.userId == uid && !n.isRead) = [] := by
  induction l with
  | nil => rfl
  | cons a l ih =>
    rw [List.map_cons, List.filter_cons]
    rw [markAll_filter_false uid t a]
    simpa using ih

theorem countUnread_markAll (l : List Notification) (uid : Nat) (t : Nat) :
    countUnread (l.map (fun (n : Notification) => if n.userId == uid && !n.isRead then
      { n with isRead := true, readAt := some t } else n)) uid = 0 := by
  unfold countUnread
  rw [markAll_filter_nil]
  rfl

/-! ### Sample data for concrete witnesses -/

/-- A sample user (id 1). -/
def aliceU : User := { id := 1, name := "Alice", isActive := true, isPublic := true }

/-- A sample user (id 2). -/
def bobU : User := { id := 2, name := "Bob", isActive := true, isPublic := true }

/-- A sample world: two active public users, a `PENDING` swap (id 10), an
`ACCEPTED` swap (id 11), a `REJECTED` swap (id 12), and one unread
notification (id 20) owned by user 2. -/
def wStore : Store :=
  { users := [aliceU, bobU],
    swaps := [{ id := 10, senderId := 1, receiverId := 2, skillOffered := "Guitar",
                skillRequested := "Excel", message := none, status := Status.pending,
                createdAt := 0, updatedAt := 0, completedAt := none },
              { id := 11, senderId := 1, receiverId := 2, skillOffered := "Piano",
                skillRequested := "Word", message := none, status := Status.accepted,
                createdAt := 0, updatedAt := 0, completedAt := none },
              { id := 12, senderId := 1, receiverId := 2, skillOffered := "Chess",
                skillRequested := "Baking", message := none, status := Status.rejected,
                createdAt := 0, updatedAt := 0, completedAt := none }],
    notifications := [{ id := 20, userId := 2, type := "SWAP_REQUEST_RECEIVED",
                        title := "New Swap Request", message := "pending request",
                        isRead := false, readAt := none, createdAt := 0 }],
    pushed := [], nextId := 100, now := 7, io := true, pushOk := true }

/-! ### Claims -/

/-- C6: `markRead(notificationId, userId)` fails with `NotFound` exactly when
no notification with that id belongs to that user; otherwise it sets the read
flag to true, stamps the read timestamp, and pushes to that user an unread
count recomputed from the store after the flip. -/
theorem c6_markRead_spec (st : Store) (nid uid : Nat)
    (hio : st.io = true) (hpush : st.pushOk = true) :
    ((markAsRead st nid uid).1 = Except.error ApiErr.notFound ↔
      findNotifOwned st nid uid = none) ∧
    (∀ n, findNotifOwned st nid uid = some n →
      (markAsRead st nid uid).1 =
        Except.ok { n with isRead := true, readAt := some st.now } ∧
      (markAsRead st nid uid).2.pushed = st.pushed ++
        [PushEvent.count uid (getUnreadCount (markAsRead st nid uid).2 uid)]) := by
  unfold markAsRead
  cases hf : findNotifOwned st nid uid
  · dsimp only
    constructor
    · simp
    · intro n hn
      exact absurd hn (by simp)
  · rename_i n
    dsimp only
    rw [if_pos hio, if_pos hpush]
    constructor
    · simp
    · intro n0 h0
      have hn0 : n = n0 := by injection h0
      subst hn0
      exact ⟨rfl, rfl⟩

/-- Witness for C6 at a concrete store and notification. -/
theorem c6_markRead_spec_witness :
    ((markAsRead wStore 20 2).1 = Except.error ApiErr.notFound ↔
      findNotifOwned wStore 20 2 = none) ∧
    (∀ n, findNotifOwned wStore 20 2 = some n →
      (markAsRead wStore 20 2).1 =
        Except.ok { n with isRead := true, readAt := some wStore.now } ∧
      (markAsRead wStore 20 2).2.pushed = wStore.pushed ++
        [PushEvent.count 2 (getUnreadCount (markAsRead wStore 20 2).2 2)]) :=
  c6_markRead_spec wStore 20 2 (by decide) (by decide)

/-- C7: after `markAllRead(userId)` the user has zero unread notifications and
an unread count of zero is pushed, and a subsequent `emit` to that same user
still creates a new notification with read flag false, so the bulk action does
not block future unread notifications. -/
theorem c7_markAllRead_spec (st : Store) (uid : Nat) (ty ti me : String)
    (hio : st.io = true) (hpush : st.pushOk = true) :
    getUnreadCount (markAllAsRead st uid).2 uid = 0 ∧
    (markAllAsRead st uid).2.pushed = st.pushed ++ [PushEvent.count uid 0] ∧
    (∃ n : Notification, (createNotification (markAllAsRead st uid).2 uid ty ti me).1 =
        Except.ok n ∧ n.isRead = false ∧
      getUnreadCount (createNotification (markAllAsRead st uid).2 uid ty ti me).2 uid = 1) := by
  unfold markAllAsRead
  dsimp only
  rw [if_pos hio, if_pos hpush]
  refine ⟨?_, rfl, ?_⟩
  · exact countUnread_markAll st.notifications uid st.now
  · refine ⟨_, createNotification_fst_of_push_ok _ uid ty ti me hio hpush, rfl, ?_⟩
    rw [getUnreadCount_eq, createNotification_snd_notifications, countUnread_append,
      countUnread_singleton]
    simp only [pushToUser_notifications]
    rw [countUnread_markAll]
    simp

/-- Witness for C7 at a concrete store and user. -/
theorem c7_markAllRead_spec_witness :
    getUnreadCount (markAllAsRead wStore 2).2 2 = 0 ∧
    (markAllAsRead wStore 2).2.pushed = wStore.pushed ++ [PushEvent.count 2 0] ∧
    (∃ n : Notification,
      (createNotification (markAllAsRead wStore 2).2 2 "PLATFORM_MESSAGE" "t" "m").1 =
        Except.ok n ∧ n.isRead = false ∧
      getUnreadCount (createNotification (markAllAsRead wStore 2).2 2
        "PLATFORM_MESSAGE" "t" "m").2 2 = 1) :=
  c7_markAllRead_spec wStore 2 "PLATFORM_MESSAGE" "t" "m" (by decide) (by decide)

/-- C8: submit with a receiverId that refers to no existing user fails with
NotFound (not InvalidArgument).  The self-request check runs first: a
self-request to a missing receiver is InvalidArgument.  The missing-receiver
outcome holds for every swap table, in particular when a matching pending
duplicate exists, so the lookup precedes the duplicate check (and the
inactive/private checks read fields of the looked-up row, so they can only run
after it). -/
theorem c8_submit_missing_receiver (st : Store) (A B : Nat) (so sr : String)
    (m : Option String)
    (hval : validationFails (trimString so) (trimString sr) (m.map trimString) = false) :
    (¬A = B → findUser st B = none →
      submit st A B so sr m = (Except.error ApiErr.notFound, st)) ∧
    (A = B → submit st A B so sr m = (Except.error ApiErr.invalidArgument, st)) := by
  constructor
  · intro hne habs
    exact submit_receiver_missing hval hne habs
  · intro hAB
    exact submit_self hAB

/-- Witness for C8: user 5 does not exist in the sample store (which does hold
a matching pending request between 1 and 2), and the call fails NotFound. -/
theorem c8_submit_missing_receiver_witness :
    submit wStore 1 5 "Guitar" "Excel" none = (Except.error ApiErr.notFound, wStore) :=
  (c8_submit_missing_receiver wStore 1 5 "Guitar" "Excel" none (by decide)).1
    (by decide) (by decide)

/-- C9 counterexample: with a PENDING request (1, 2, "Guitar", "Excel") on
file, the whitespace variant `submit(1, 2, " Guitar ", "Excel")` does NOT
succeed: the `.trim()` entries of `createSwapValidation` are express-validator
sanitizers that replace the values in `req.body` before the handler runs, so
the duplicate check compares trimmed values and rejects with InvalidArgument,
leaving the store unchanged. -/
theorem c9_whitespace_variant_rejected :
    (submit wStore 1 2 " Guitar " "Excel" none).1 = Except.error ApiErr.invalidArgument ∧
    (submit wStore 1 2 " Guitar " "Excel" none).2 = wStore := by
  have h := @submit_blocked wStore 1 2 " Guitar " "Excel" none bobU (by decide)
    (Or.inr (Or.inr (by decide)))
  rw [h]
  exact ⟨rfl, rfl⟩

/-- C9 (amended): the duplicate-pending check runs on the sanitizer-trimmed
input, so every submit differing from an existing PENDING request between the
same parties only by surrounding whitespace in the skill labels fails with
InvalidArgument and creates nothing. -/
theorem c9_trimmed_duplicate (st : Store) (A B : Nat) (so sr : String)
    (m : Option String) (u : User) (r : SwapRequest)
    (hrecv : findUser st B = some u)
    (hr : r ∈ st.swaps) (hsend : r.senderId = A) (hrecv2 : r.receiverId = B)
    (hstat : r.status = Status.pending)
    (hso : trimString so = r.skillOffered) (hsr : trimString sr = r.skillRequested) :
    submit st A B so sr m = (Except.error ApiErr.invalidArgument, st) := by
  apply submit_blocked hrecv
  right
  right
  unfold duplicatePending
  rw [List.any_eq_true]
  refine ⟨r, hr, ?_⟩
  simp [hsend, hrecv2, hstat, hso.symm, hsr.symm]

/-- Witness for the amended C9 at the concrete whitespace-variant input. -/
theorem c9_trimmed_duplicate_witness :
    submit wStore 1 2 " Guitar " " Excel" none =
      (Except.error ApiErr.invalidArgument, wStore) :=
  c9_trimmed_duplicate wStore 1 2 " Guitar " " Excel" none bobU
    { id := 10, senderId := 1, receiverId := 2, skillOffered := "Guitar",
      skillRequested := "Excel", message := none, status := Status.pending,
      createdAt := 0, updatedAt := 0, completedAt := none }
    (by decide) (by decide) (by decide) (by decide) (by decide) (by decide) (by decide)

theorem trimString_idem (s : String) : trimString (trimString s) = trimString s := by
  have key : ∀ l : List Char,
      List.rdropWhile Char.isWhitespace
        ((List.rdropWhile Char.isWhitespace (l.dropWhile Char.isWhitespace)).dropWhile
          Char.isWhitespace) =
        List.rdropWhile Char.isWhitespace (l.dropWhile Char.isWhitespace) := by
    intro l
    have hpre : List.rdropWhile Char.isWhitespace (l.dropWhile Char.isWhitespace) <+:
        l.dropWhile Char.isWhitespace := List.rdropWhile_prefix _ _
    have hself : (List.rdropWhile Char.isWhitespace (l.dropWhile Char.isWhitespace)).dropWhile
        Char.isWhitespace =
        List.rdropWhile Char.isWhitespace (l.dropWhile Char.isWhitespace) := by
      rw [List.dropWhile_eq_self_iff]
      intro hl
      have h2 : 0 < (l.dropWhile Char.isWhitespace).length :=
        lt_of_lt_of_le hl hpre.length_le
      have hw := List.dropWhile_get_zero_not _ l h2
      have hEq : (List.rdropWhile Char.isWhitespace (l.dropWhile Char.isWhitespace)).get
          ⟨0, hl⟩ = (l.dropWhile Char.isWhitespace).get ⟨0, h2⟩ := by
        simpa [List.get_eq_getElem] using hpre.getElem hl
      rw [hEq]
      exact hw
    rw [hself, List.rdropWhile_idempotent]
  exact congrArg String.mk (key s.data)

theorem submit_snd_users (st : Store) (A B : Nat) (so sr : String) (m : Option String) :
    (submit st A B so sr m).2.users = st.users := by
  unfold submit
  dsimp only
  split
  · rfl
  · split
    · rfl
    · split
      · rfl
      · split
        · rfl
        · split
          · rfl
          · split
            · rfl
            · split
              · rw [notifyThen_snd]
                unfold notifySwapRequestReceived
                exact createNotification_snd_users _ _ _ _ _
              · rfl

/-- C3: submit fails with InvalidArgument when sender equals receiver, when
the receiver is inactive, when the receiver is private, and when an
equivalent PENDING request already exists between the two parties matching
the skill pair in either direction — in particular a mirrored resubmission
`submit(B, A, s2, s1)` while `submit(A, B, s1, s2)` is still PENDING fails
with InvalidArgument.  On success it persists a new PENDING record, returns
it, and creates a "request received" notification for the receiver. -/
theorem c3_submit_spec (st : Store) (A B : Nat) (so sr : String) (m : Option String)
    (u : User) :
    (A = B → submit st A B so sr m = (Except.error ApiErr.invalidArgument, st)) ∧
    (findUser st B = some u →
      (u.isActive = false ∨ u.isPublic = false ∨
        duplicatePending st A B (trimString so) (trimString sr) = true) →
      submit st A B so sr m = (Except.error ApiErr.invalidArgument, st)) ∧
    (st.io = true → st.pushOk = true →
      validationFails (trimString so) (trimString sr) (m.map trimString) = false →
      ¬A = B → findUser st B = some u → u.isActive = true → u.isPublic = true →
      duplicatePending st A B (trimString so) (trimString sr) = false →
      (submit st A B so sr m).1 =
        Except.ok (newSwapRow st A B (trimString so) (trimString sr) (m.map trimString)) ∧
      (newSwapRow st A B (trimString so) (trimString sr) (m.map trimString)).status =
        Status.pending ∧
      (submit st A B so sr m).2.swaps =
        st.swaps ++ [newSwapRow st A B (trimString so) (trimString sr) (m.map trimString)] ∧
      (submit st A B so sr m).2.notifications = st.notifications ++
        [{ id := st.nextId + 1, userId := B, type := "SWAP_REQUEST_RECEIVED",
           title := "New Swap Request",
           message := userName st A ++ " wants to swap " ++ trimString sr ++
             " for your " ++ trimString so,
           isRead := false, readAt := none, createdAt := st.now }] ∧
      (∀ uA : User, findUser st A = some uA →
        (submit (submit st A B so sr m).2 B A sr so none).1 =
          Except.error ApiErr.invalidArgument)) := by
  refine ⟨fun hAB => submit_self hAB, fun hrecv hbad => submit_blocked hrecv hbad, ?_⟩
  intro hio hpush hval hne hrecv hact hpub hdup
  obtain ⟨h1, h2, h3⟩ := submit_success hio hpush hval hne hrecv hact hpub hdup
  refine ⟨h1, rfl, h2, h3, ?_⟩
  intro uA huA
  have husers : (submit st A B so sr m).2.users = st.users := submit_snd_users st A B so sr m
  have huA1 : findUser (submit st A B so sr m).2 A = some uA := by
    unfold findUser at huA ⊢
    rw [husers]
    exact huA
  have hdup2 : duplicatePending (submit st A B so sr m).2 B A
      (trimString sr) (trimString so) = true := by
    unfold duplicatePending
    rw [List.any_eq_true]
    refine ⟨newSwapRow st A B (trimString so) (trimString sr) (m.map trimString), ?_, ?_⟩
    · rw [h2]
      exact List.mem_append_right _ (List.mem_singleton_self _)
    · simp [newSwapRow, trimString_idem]
  have hblock := @submit_blocked (submit st A B so sr m).2 B A sr so none uA huA1
    (Or.inr (Or.inr hdup2))
  rw [hblock]

/-- Witness for C3: the mirrored resubmission scenario at a concrete store. -/
theorem c3_submit_spec_witness :
    (submit (submit wStore 1 2 "Piano" "Word" none).2 2 1 "Word" "Piano" none).1 =
      Except.error ApiErr.invalidArgument :=
  (((c3_submit_spec wStore 1 2 "Piano" "Word" none bobU).2.2 (by decide) (by decide)
    (by decide) (by decide) (by decide) (by decide) (by decide) (by decide)).2.2.2.2)
    aliceU (by decide)

theorem createNotification_of_push_fail (st : Store) (uid : Nat) (ty ti me : String)
    (hio : st.io = true) (hpush : st.pushOk = false) :
    createNotification st uid ty ti me = (Except.error (),
      { st with notifications := st.notifications ++
                  [{ id := st.nextId, userId := uid, type := ty, title := ti,
                     message := me, isRead := false, readAt := none,
                     createdAt := st.now }],
                nextId := st.nextId + 1 }) := by
  unfold createNotification
  dsimp only
  rw [if_pos hio, if_neg (by simp [hpush])]

/-- The sample world with a failing live channel. -/
def wStoreBadPush : Store := { wStore with pushOk := false }

/-- C5 counterexample: with the live push failing, `complete` on the ACCEPTED
swap (id 11) persists the transition — the final store holds the record with
status COMPLETED and one new notification row — yet the operation reports an
internal (500) failure instead of success: `createNotification` catches, logs
and rethrows the emit error, and the route handler's catch escalates it. -/
theorem c5_publish_failure_escalates :
    (complete wStoreBadPush 11 1).1 = Except.error ApiErr.internal ∧
    (findSwap (complete wStoreBadPush 11 1).2 11).map (fun r => r.status) =
      some Status.completed ∧
    (complete wStoreBadPush 11 1).2.notifications.length =
      wStoreBadPush.notifications.length + 1 := by
  decide

/-- C5 (amended): when the live push fails after a successful `complete`
transition, the transition (and the sender notification persisted before the
failing emit) remains committed, but the operation reports an internal (500)
failure: the publish failure is rethrown rather than swallowed, so the
triggering operation does NOT report success. -/
theorem c5_push_fail_keeps_write_but_reports_error (st : Store) (sid c : Nat)
    (r : SwapRequest)
    (hio : st.io = true) (hpushNo : st.pushOk = false)
    (hf : findSwap st sid = some r) (hpart : r.senderId = c ∨ r.receiverId = c)
    (hstat : r.status = Status.accepted) :
    (complete st sid c).1 = Except.error ApiErr.internal ∧
    findSwap (complete st sid c).2 sid =
      some { r with status := Status.completed, completedAt := some st.now,
                    updatedAt := st.now } := by
  have hg : completeGuard st sid c = Except.ok r := by
    unfold completeGuard
    rw [hf]
    dsimp only
    rw [if_neg (by rcases hpart with h | h <;> simp [h]), if_neg (by simp [hstat])]
  have hfind := findSwap_updateSwapRow st sid (fun x =>
    { x with status := Status.completed, completedAt := some st.now,
             updatedAt := st.now }) (fun x => rfl) sid
  rw [hf] at hfind
  have hid : (r.id == sid) = true := by simp [findSwap_id hf]
  unfold complete
  rw [hg]
  dsimp only
  rw [if_pos (show (updateSwapRow st sid _).io = true from hio)]
  rw [show notifySwapCompleted (updateSwapRow st sid (fun x =>
      { x with status := Status.completed, completedAt := some st.now,
               updatedAt := st.now })) r.senderId
      (userName (updateSwapRow st sid (fun x =>
        { x with status := Status.completed, completedAt := some st.now,
                 updatedAt := st.now })) r.receiverId)
      r.skillOffered r.skillRequested =
    createNotification (updateSwapRow st sid (fun x =>
      { x with status := Status.completed, completedAt := some st.now,
               updatedAt := st.now })) r.senderId "SWAP_COMPLETED" "Swap Completed! ✨"
      ("Your skill swap with " ++ userName (updateSwapRow st sid (fun x =>
        { x with status := Status.completed, completedAt := some st.now,
                 updatedAt := st.now })) r.receiverId ++
        " has been completed. Don\x27t forget to leave feedback!") from rfl]
  rw [createNotification_of_push_fail (updateSwapRow st sid (fun x =>
      { x with status := Status.completed, completedAt := some st.now,
               updatedAt := st.now })) r.senderId "SWAP_COMPLETED" "Swap Completed! ✨"
      ("Your skill swap with " ++ userName (updateSwapRow st sid (fun x =>
        { x with status := Status.completed, completedAt := some st.now,
                 updatedAt := st.now })) r.receiverId ++
        " has been completed. Don\x27t forget to leave feedback!")
      (show (updateSwapRow st sid (fun x =>
        { x with status := Status.completed, completedAt := some st.now,
                 updatedAt := st.now })).io = true from hio)
      (show (updateSwapRow st sid (fun x =>
        { x with status := Status.completed, completedAt := some st.now,
                 updatedAt := st.now })).pushOk = false from hpushNo)]
  refine ⟨rfl, ?_⟩
  rw [show findSwap { updateSwapRow st sid (fun x =>
      { x with status := Status.completed, completedAt := some st.now,
               updatedAt := st.now }) with
      notifications := (updateSwapRow st sid (fun x =>
        { x with status := Status.completed, completedAt := some st.now,
                 updatedAt := st.now })).notifications ++
        [{ id := (updateSwapRow st sid (fun x =>
             { x with status := Status.completed, completedAt := some st.now,
                      updatedAt := st.now })).nextId, userId := r.senderId,
           type := "SWAP_COMPLETED", title := "Swap Completed! ✨",
           message := "Your skill swap with " ++ userName (updateSwapRow st sid (fun x =>
             { x with status := Status.completed, completedAt := some st.now,
                      updatedAt := st.now })) r.receiverId ++
             " has been completed. Don\x27t forget to leave feedback!",
           isRead := false, readAt := none,
           createdAt := (updateSwapRow st sid (fun x =>
             { x with status := Status.completed, completedAt := some st.now,
                      updatedAt := st.now })).now }],
      nextId := (updateSwapRow st sid (fun x =>
        { x with status := Status.completed, completedAt := some st.now,
                 updatedAt := st.now })).nextId + 1 } sid =
    findSwap (updateSwapRow st sid (fun x =>
      { x with status := Status.completed, completedAt := some st.now,
               updatedAt := st.now })) sid from rfl]
  rw [hfind]
  have hre : r.id = sid := findSwap_id hf
  simp [hre]

/-- Witness for the amended C5 at the concrete failing-push store. -/
theorem c5_push_fail_keeps_write_but_reports_error_witness :
    (complete wStoreBadPush 11 1).1 = Except.error ApiErr.internal ∧
    findSwap (complete wStoreBadPush 11 1).2 11 =
      some { id := 11, senderId := 1, receiverId := 2, skillOffered := "Piano",
             skillRequested := "Word", message := none, status := Status.completed,
             createdAt := 0, updatedAt := wStoreBadPush.now,
             completedAt := some wStoreBadPush.now } :=
  c5_push_fail_keeps_write_but_reports_error wStoreBadPush 11 1
    { id := 11, senderId := 1, receiverId := 2, skillOffered := "Piano",
      skillRequested := "Word", message := none, status := Status.accepted,
      createdAt := 0, updatedAt := 0, completedAt := none }
    (by decide) (by decide) (by decide) (Or.inl (by decide)) (by decide)

@[simp]
theorem writeSwapStatus_now (st : Store) (sid : Nat) (sv : Status) :
    (writeSwapStatus st sid sv).now = st.now := rfl

theorem findSwap_writeSwapStatus (st : Store) (sid : Nat) (sv : Status) (id : Nat) :
    findSwap (writeSwapStatus st sid sv) id = (findSwap st id).map
      (fun q => if q.id == sid then { q with status := sv, updatedAt := st.now } else q) :=
  findSwap_updateSwapRow st sid
    (fun q => { q with status := sv, updatedAt := st.now }) (fun _ => rfl) id

/-- C2 counterexample: on the sample store the PENDING swap (id 10, receiver
2) admits the interleaving in which the accept and reject handlers both run
their `findUnique` + guard reads before either `update` lands: both calls
succeed (neither fails with InvalidState) and the record ends REJECTED.  The
write itself is unguarded: applied to the REJECTED record (id 12) it happily
sets ACCEPTED, so the guard is not an atomic "update only if still PENDING"
conditional update. -/
theorem c2_race_both_succeed :
    (raceAcceptReject wStore 10 2 2).1.1 = Except.ok () ∧
    (raceAcceptReject wStore 10 2 2).1.2 = Except.ok () ∧
    (findSwap (raceAcceptReject wStore 10 2 2).2 10).map (fun r => r.status) =
      some Status.rejected ∧
    (findSwap (writeSwapStatus wStore 12 Status.accepted) 12).map (fun r => r.status) =
      some Status.accepted := by
  decide

/-- C2 (amended): the transition guards are a separate read (`findUnique`
plus checks) followed by an unguarded write, so in the interleaving where
both a concurrent accept and reject read the same PENDING record before
either write lands, both calls succeed and the record takes the later write's
status; only sequential executions keep exactly-one-succeeds (after a
completed accept, the reject guard fails with InvalidState). -/
theorem c2_read_write_race (st : Store) (sid c : Nat) (r : SwapRequest)
    (hf : findSwap st sid = some r) (hrecv : r.receiverId = c)
    (hstat : r.status = Status.pending) :
    (raceAcceptReject st sid c c).1.1 = Except.ok () ∧
    (raceAcceptReject st sid c c).1.2 = Except.ok () ∧
    findSwap (raceAcceptReject st sid c c).2 sid =
      some { r with status := Status.rejected, updatedAt := st.now } ∧
    rejectGuard (accept st sid c).2 sid c = Except.error ApiErr.invalidState := by
  have hga : acceptGuard st sid c = Except.ok r := by
    unfold acceptGuard
    rw [hf]
    dsimp only
    rw [if_neg (by simp [hrecv]), if_neg (by simp [hstat])]
  have hgr : rejectGuard st sid c = Except.ok r := by
    unfold rejectGuard
    rw [hf]
    dsimp only
    rw [if_neg (by simp [hrecv]), if_neg (by simp [hstat])]
  have hre : r.id = sid := findSwap_id hf
  have hk : findSwap (accept st sid c).2 sid =
      some { r with status := Status.accepted, updatedAt := st.now } := by
    have hsw := (accept_of_guard_ok hga).1
    have hx : findSwap (accept st sid c).2 sid =
        findSwap (writeSwapStatus st sid Status.accepted) sid := by
      unfold findSwap
      rw [hsw]
    rw [hx, findSwap_writeSwapStatus, hf]
    simp [hre]
  refine ?_
  unfold raceAcceptReject
  rw [hga, hgr]
  dsimp only
  refine ⟨rfl, rfl, ?_, ?_⟩
  · rw [findSwap_writeSwapStatus, findSwap_writeSwapStatus, hf]
    simp [hre]
  · unfold rejectGuard
    rw [hk]
    dsimp only
    rw [if_neg (by simp [hrecv]), if_pos (by simp)]

/-- Witness for the amended C2 at the concrete PENDING swap of the sample
store. -/
theorem c2_read_write_race_witness :
    (raceAcceptReject wStore 10 2 2).1.1 = Except.ok () ∧
    (raceAcceptReject wStore 10 2 2).1.2 = Except.ok () ∧
    findSwap (raceAcceptReject wStore 10 2 2).2 10 =
      some { id := 10, senderId := 1, receiverId := 2, skillOffered := "Guitar",
             skillRequested := "Excel", message := none, status := Status.rejected,
             createdAt := 0, updatedAt := wStore.now, completedAt := none } ∧
    rejectGuard (accept wStore 10 2).2 10 2 = Except.error ApiErr.invalidState :=
  c2_read_write_race wStore 10 2
    { id := 10, senderId := 1, receiverId := 2, skillOffered := "Guitar",
      skillRequested := "Excel", message := none, status := Status.pending,
      createdAt := 0, updatedAt := 0, completedAt := none }
    (by decide) (by decide) (by decide)

theorem notifySwapCompleted_eq (st : Store) (uid : Nat) (nm a b : String) :
    notifySwapCompleted st uid nm a b =
      createNotification st uid "SWAP_COMPLETED" "Swap Completed! ✨"
        ("Your skill swap with " ++ nm ++
          " has been completed. Don\x27t forget to leave feedback!") := rfl

theorem createNotification_of_push_ok (st : Store) (uid : Nat) (ty ti me : String)
    (hio : st.io = true) (hpush : st.pushOk = true) :
    createNotification st uid ty ti me = (Except.ok
      { id := st.nextId, userId := uid, type := ty, title := ti, message := me,
        isRead := false, readAt := none, createdAt := st.now },
      { st with notifications := st.notifications ++
                  [{ id := st.nextId, userId := uid, type := ty, title := ti,
                     message := me, isRead := false, readAt := none,
                     createdAt := st.now }],
                nextId := st.nextId + 1,
                pushed := st.pushed ++
                  [PushEvent.note uid
                     { id := st.nextId, userId := uid, type := ty, title := ti,
                       message := me, isRead := false, readAt := none,
                       createdAt := st.now },
                   PushEvent.count uid (countUnread (st.notifications ++
                     [{ id := st.nextId, userId := uid, type := ty, title := ti,
                        message := me, isRead := false, readAt := none,
                        createdAt := st.now }]) uid)] }) := by
  unfold createNotification pushToUser getUnreadCount
  dsimp only
  rw [if_pos hio, if_pos hpush]
  simp [List.append_assoc]

/-- C4: when `complete(swapId, callerId)` succeeds (caller is a party, status
ACCEPTED), the record transitions to COMPLETED with the completion timestamp
set, and sender and receiver each gain exactly one new unread notification of
type SWAP_COMPLETED, so each party's unread count increases by exactly one;
`complete` fails with Forbidden when the caller is neither sender nor
receiver. -/
theorem c4_complete_notifies_both (st : Store) (sid caller : Nat) (r : SwapRequest)
    (hio : st.io = true) (hpush : st.pushOk = true)
    (hf : findSwap st sid = some r) (hstat : r.status = Status.accepted)
    (hcaller : r.senderId = caller ∨ r.receiverId = caller)
    (hne : r.senderId ≠ r.receiverId) :
    (complete st sid caller).1 =
      Except.ok { r with status := Status.completed, completedAt := some st.now,
                         updatedAt := st.now } ∧
    getUnreadCount (complete st sid caller).2 r.senderId =
      getUnreadCount st r.senderId + 1 ∧
    getUnreadCount (complete st sid caller).2 r.receiverId =
      getUnreadCount st r.receiverId + 1 ∧
    countUnreadOfType (complete st sid caller).2.notifications r.senderId
        "SWAP_COMPLETED" =
      countUnreadOfType st.notifications r.senderId "SWAP_COMPLETED" + 1 ∧
    countUnreadOfType (complete st sid caller).2.notifications r.receiverId
        "SWAP_COMPLETED" =
      countUnreadOfType st.notifications r.receiverId "SWAP_COMPLETED" + 1 ∧
    (∀ c2, c2 ≠ r.senderId → c2 ≠ r.receiverId →
      (complete st sid c2).1 = Except.error ApiErr.forbidden) := by
  have hg : completeGuard st sid caller = Except.ok r := by
    unfold completeGuard
    rw [hf]
    dsimp only
    rw [if_neg (by rcases hcaller with h | h <;> simp [h]), if_neg (by simp [hstat])]
  have hforb : ∀ c2, c2 ≠ r.senderId → c2 ≠ r.receiverId →
      (complete st sid c2).1 = Except.error ApiErr.forbidden := by
    intro c2 h1 h2
    have hg2 : completeGuard st sid c2 = Except.error ApiErr.forbidden := by
      unfold completeGuard
      rw [hf]
      dsimp only
      rw [if_pos (by
        simp only [Bool.and_eq_true, bne_iff_ne, ne_eq]
        exact ⟨Ne.symm h1, Ne.symm h2⟩)]
    rw [complete_of_guard_error hg2]
  have hshape : (complete st sid caller).1 =
      Except.ok { r with status := Status.completed, completedAt := some st.now,
                         updatedAt := st.now } ∧
      ∃ n1 n2 : Notification,
        (complete st sid caller).2.notifications = (st.notifications ++ [n1]) ++ [n2] ∧
        n1.userId = r.senderId ∧ n1.isRead = false ∧ n1.type = "SWAP_COMPLETED" ∧
        n2.userId = r.receiverId ∧ n2.isRead = false ∧ n2.type = "SWAP_COMPLETED" := by
    unfold complete
    rw [hg]
    dsimp only
    rw [if_pos (show (updateSwapRow st sid _).io = true from hio)]
    rw [notifySwapCompleted_eq]
    rw [createNotification_of_push_ok]
    · dsimp only
      rw [notifySwapCompleted_eq]
      rw [createNotification_of_push_ok]
      · dsimp only [notifyThen]
        exact ⟨rfl, _, _, rfl, rfl, rfl, rfl, rfl, rfl, rfl⟩
      · exact hio
      · exact hpush
    · exact hio
    · exact hpush
  obtain ⟨hfst, n1, n2, hnots, hu1, hr1, ht1, hu2, hr2, ht2⟩ := hshape
  refine ⟨hfst, ?_, ?_, ?_, ?_, hforb⟩
  · rw [getUnreadCount_eq, getUnreadCount_eq, hnots, countUnread_append, countUnread_append,
      countUnread_singleton, countUnread_singleton]
    simp [hu1, hr1, hu2, hr2, Ne.symm hne]
  · rw [getUnreadCount_eq, getUnreadCount_eq, hnots, countUnread_append, countUnread_append,
      countUnread_singleton, countUnread_singleton]
    simp [hu1, hr1, hu2, hr2, hne]
  · rw [hnots, countUnreadOfType_append, countUnreadOfType_append,
      countUnreadOfType_singleton, countUnreadOfType_singleton]
    simp [hu1, hr1, ht1, hu2, hr2, ht2, Ne.symm hne]
  · rw [hnots, countUnreadOfType_append, countUnreadOfType_append,
      countUnreadOfType_singleton, countUnreadOfType_singleton]
    simp [hu1, hr1, ht1, hu2, hr2, ht2, hne]

/-- Witness for C4 at the concrete ACCEPTED swap (id 11) of the sample
store, completed by the sender. -/
theorem c4_complete_notifies_both_witness :
    (complete wStore 11 1).1 =
      Except.ok { id := 11, senderId := 1, receiverId := 2, skillOffered := "Piano",
                  skillRequested := "Word", message := none, status := Status.completed,
                  createdAt := 0, updatedAt := wStore.now,
                  completedAt := some wStore.now } ∧
    getUnreadCount (complete wStore 11 1).2 1 = getUnreadCount wStore 1 + 1 ∧
    getUnreadCount (complete wStore 11 1).2 2 = getUnreadCount wStore 2 + 1 := by
  have h := c4_complete_notifies_both wStore 11 1
    { id := 11, senderId := 1, receiverId := 2, skillOffered := "Piano",
      skillRequested := "Word", message := none, status := Status.accepted,
      createdAt := 0, updatedAt := 0, completedAt := none }
    (by decide) (by decide) (by decide) (by decide) (Or.inl (by decide)) (by decide)
  exact ⟨h.1, h.2.1, h.2.2.1⟩

theorem edge_of_write (st : Store) (sid id : Nat) (g : SwapRequest → SwapRequest)
    (hg : ∀ x, (g x).id = x.id) (st' : Store)
    (hsw : st'.swaps = (updateSwapRow st sid g).swaps)
    (q q' : SwapRequest) (hq : findSwap st id = some q)
    (hq' : findSwap st' id = some q') :
    q' = q ∨ (q.id = sid ∧ q' = g q) := by
  have hfind : findSwap st' id = findSwap (updateSwapRow st sid g) id := by
    unfold findSwap
    rw [hsw]
  rw [hfind, findSwap_updateSwapRow st sid g hg, hq] at hq'
  injection hq' with h2
  dsimp only at h2
  by_cases hid : (q.id == sid) = true
  · right
    refine ⟨beq_iff_eq.mp hid, ?_⟩
    rw [if_pos hid] at h2
    exact h2.symm
  · left
    rw [if_neg hid] at h2
    exact h2.symm

theorem submit_cases (st : Store) (A B : Nat) (so sr : String) (m : Option String) :
    ((submit st A B so sr m).1 = Except.error ApiErr.invalidArgument ∧
      (submit st A B so sr m).2 = st) ∨
    ((submit st A B so sr m).1 = Except.error ApiErr.notFound ∧
      (submit st A B so sr m).2 = st) ∨
    ((submit st A B so sr m).2.swaps = st.swaps ++
        [newSwapRow st A B (trimString so) (trimString sr) (m.map trimString)] ∧
      ((submit st A B so sr m).1 =
          Except.ok (newSwapRow st A B (trimString so) (trimString sr) (m.map trimString)) ∨
        (submit st A B so sr m).1 = Except.error ApiErr.internal)) := by
  unfold submit
  dsimp only
  split
  · exact Or.inl ⟨rfl, rfl⟩
  · split
    · exact Or.inl ⟨rfl, rfl⟩
    · split
      · exact Or.inr (Or.inl ⟨rfl, rfl⟩)
      · split
        · exact Or.inl ⟨rfl, rfl⟩
        · split
          · exact Or.inl ⟨rfl, rfl⟩
          · split
            · exact Or.inl ⟨rfl, rfl⟩
            · refine Or.inr (Or.inr ?_)
              split
              · constructor
                · rw [notifyThen_snd]
                  unfold notifySwapRequestReceived
                  exact createNotification_snd_swaps _ _ _ _ _
                · exact notifyThen_fst _ _
              · exact ⟨rfl, Or.inl rfl⟩

theorem accept_edge (st : Store) (sid c id : Nat) (q q' : SwapRequest)
    (hq : findSwap st id = some q)
    (hq' : findSwap (accept st sid c).2 id = some q') :
    q'.status = q.status ∨ allowedEdge q.status q'.status = true := by
  cases hg : acceptGuard st sid c with
  | error e =>
    rw [accept_of_guard_error hg] at hq'
    dsimp only at hq'
    rw [hq] at hq'
    injection hq' with h2
    exact Or.inl (by rw [h2])
  | ok r0 =>
    obtain ⟨hf0, _, hstat0⟩ := acceptGuard_ok hg
    rcases edge_of_write st sid id
        (fun x => { x with status := Status.accepted, updatedAt := st.now })
        (fun _ => rfl) (accept st sid c).2 (accept_of_guard_ok hg).1 q q' hq hq' with
      hsame | ⟨hid, hgq⟩
    · exact Or.inl (by rw [hsame])
    · right
      have hqid : q.id = id := findSwap_id hq
      have hids : id = sid := by rw [← hqid, hid]
      subst hids
      rw [hq] at hf0
      injection hf0 with hq0
      rw [hgq, hq0, hstat0]
      rfl

theorem reject_edge (st : Store) (sid c id : Nat) (q q' : SwapRequest)
    (hq : findSwap st id = some q)
    (hq' : findSwap (reject st sid c).2 id = some q') :
    q'.status = q.status ∨ allowedEdge q.status q'.status = true := by
  cases hg : rejectGuard st sid c with
  | error e =>
    rw [reject_of_guard_error hg] at hq'
    dsimp only at hq'
    rw [hq] at hq'
    injection hq' with h2
    exact Or.inl (by rw [h2])
  | ok r0 =>
    obtain ⟨hf0, _, hstat0⟩ := rejectGuard_ok hg
    rcases edge_of_write st sid id
        (fun x => { x with status := Status.rejected, updatedAt := st.now })
        (fun _ => rfl) (reject st sid c).2 (reject_of_guard_ok hg).1 q q' hq hq' with
      hsame | ⟨hid, hgq⟩
    · exact Or.inl (by rw [hsame])
    · right
      have hqid : q.id = id := findSwap_id hq
      have hids : id = sid := by rw [← hqid, hid]
      subst hids
      rw [hq] at hf0
      injection hf0 with hq0
      rw [hgq, hq0, hstat0]
      rfl

theorem cancel_edge (st : Store) (sid c id : Nat) (q q' : SwapRequest)
    (hq : findSwap st id = some q)
    (hq' : findSwap (cancel st sid c).2 id = some q') :
    q'.status = q.status ∨ allowedEdge q.status q'.status = true := by
  cases hg : cancelGuard st sid c with
  | error e =>
    rw [cancel_of_guard_error hg] at hq'
    dsimp only at hq'
    rw [hq] at hq'
    injection hq' with h2
    exact Or.inl (by rw [h2])
  | ok r0 =>
    obtain ⟨hf0, _, hstat0⟩ := cancelGuard_ok hg
    have hsw : (cancel st sid c).2.swaps =
        (updateSwapRow st sid (fun x =>
          { x with status := Status.cancelled, updatedAt := st.now })).swaps := by
      rw [cancel_of_guard_ok hg]
      rfl
    rcases edge_of_write st sid id
        (fun x => { x with status := Status.cancelled, updatedAt := st.now })
        (fun _ => rfl) (cancel st sid c).2 hsw q q' hq hq' with
      hsame | ⟨hid, hgq⟩
    · exact Or.inl (by rw [hsame])
    · right
      have hqid : q.id = id := findSwap_id hq
      have hids : id = sid := by rw [← hqid, hid]
      subst hids
      rw [hq] at hf0
      injection hf0 with hq0
      rw [hgq, hq0, hstat0]
      rfl

theorem complete_edge (st : Store) (sid c id : Nat) (q q' : SwapRequest)
    (hq : findSwap st id = some q)
    (hq' : findSwap (complete st sid c).2 id = some q') :
    q'.status = q.status ∨ allowedEdge q.status q'.status = true := by
  cases hg : completeGuard st sid c with
  | error e =>
    rw [complete_of_guard_error hg] at hq'
    dsimp only at hq'
    rw [hq] at hq'
    injection hq' with h2
    exact Or.inl (by rw [h2])
  | ok r0 =>
    obtain ⟨hf0, _, hstat0⟩ := completeGuard_ok hg
    rcases edge_of_write st sid id
        (fun x => { x with status := Status.completed, completedAt := some st.now,
                           updatedAt := st.now })
        (fun _ => rfl) (complete st sid c).2 (complete_of_guard_ok hg).1 q q' hq hq' with
      hsame | ⟨hid, hgq⟩
    · exact Or.inl (by rw [hsame])
    · right
      have hqid : q.id = id := findSwap_id hq
      have hids : id = sid := by rw [← hqid, hid]
      subst hids
      rw [hq] at hf0
      injection hf0 with hq0
      rw [hgq, hq0, hstat0]
      rfl

theorem accept_none (st : Store) (sid c id : Nat)
    (hnone : findSwap st id = none) :
    findSwap (accept st sid c).2 id = none := by
  cases hg : acceptGuard st sid c with
  | error e =>
    rw [accept_of_guard_error hg]
    exact hnone
  | ok r0 =>
    have hfind : findSwap (accept st sid c).2 id =
        findSwap (writeSwapStatus st sid Status.accepted) id := by
      unfold findSwap
      rw [(accept_of_guard_ok hg).1]
    rw [hfind, findSwap_writeSwapStatus, hnone]
    rfl

theorem reject_none (st : Store) (sid c id : Nat)
    (hnone : findSwap st id = none) :
    findSwap (reject st sid c).2 id = none := by
  cases hg : rejectGuard st sid c with
  | error e =>
    rw [reject_of_guard_error hg]
    exact hnone
  | ok r0 =>
    have hfind : findSwap (reject st sid c).2 id =
        findSwap (writeSwapStatus st sid Status.rejected) id := by
      unfold findSwap
      rw [(reject_of_guard_ok hg).1]
    rw [hfind, findSwap_writeSwapStatus, hnone]
    rfl

theorem cancel_none (st : Store) (sid c id : Nat)
    (hnone : findSwap st id = none) :
    findSwap (cancel st sid c).2 id = none := by
  cases hg : cancelGuard st sid c with
  | error e =>
    rw [cancel_of_guard_error hg]
    exact hnone
  | ok r0 =>
    have hfind : findSwap (cancel st sid c).2 id =
        findSwap (writeSwapStatus st sid Status.cancelled) id := by
      unfold findSwap
      rw [cancel_of_guard_ok hg]
    rw [hfind, findSwap_writeSwapStatus, hnone]
    rfl

theorem complete_none (st : Store) (sid c id : Nat)
    (hnone : findSwap st id = none) :
    findSwap (complete st sid c).2 id = none := by
  cases hg : completeGuard st sid c with
  | error e =>
    rw [complete_of_guard_error hg]
    exact hnone
  | ok r0 =>
    have hfind : findSwap (complete st sid c).2 id =
        findSwap (updateSwapRow st sid (fun x =>
          { x with status := Status.completed, completedAt := some st.now,
                   updatedAt := st.now })) id := by
      unfold findSwap
      rw [(complete_of_guard_ok hg).1]
    rw [hfind, findSwap_updateSwapRow st sid (fun x =>
      { x with status := Status.completed, completedAt := some st.now,
               updatedAt := st.now }) (fun _ => rfl), hnone]
    rfl

/-- C1: for every store and every lifecycle operation, (i) an existing swap
record's status either stays unchanged or moves along an allowed edge
(`PENDING → {ACCEPTED, REJECTED, CANCELLED}`, `ACCEPTED → COMPLETED`), so
along any sequence of the five operations statuses only ever follow these
edges; (ii) a record that was absent before an operation and present after it
was created with status PENDING; (iii) a transition operation on an existing
record whose current status does not admit the attempted edge, invoked by the
caller the handler authorizes for it, fails with InvalidState and leaves the
store — in particular the record's status — unchanged. -/
theorem c1_state_machine (st : Store) (op : Op) :
    (∀ id q q', findSwap st id = some q → findSwap (runOp st op).2 id = some q' →
      q'.status = q.status ∨ allowedEdge q.status q'.status = true) ∧
    (∀ id q', findSwap st id = none → findSwap (runOp st op).2 id = some q' →
      q'.status = Status.pending) ∧
    (∀ sid c tgt r, transitionInfo op = some (sid, c, tgt) →
      findSwap st sid = some r → authorizedCaller op r = true →
      allowedEdge r.status tgt = false →
      (runOp st op).1 = Except.error ApiErr.invalidState ∧ (runOp st op).2 = st) := by
  refine ⟨?_, ?_, ?_⟩
  · intro id q q' hq hq'
    cases op with
    | submit A B so sr m =>
      dsimp only [runOp] at hq'
      rcases submit_cases st A B so sr m with ⟨_, h2⟩ | ⟨_, h2⟩ | ⟨h2, _⟩
      · rw [h2, hq] at hq'
        injection hq' with h3
        exact Or.inl (by rw [h3])
      · rw [h2, hq] at hq'
        injection hq' with h3
        exact Or.inl (by rw [h3])
      · have hfind : findSwap (submit st A B so sr m).2 id =
            List.find? (fun r => r.id == id) (st.swaps ++
              [newSwapRow st A B (trimString so) (trimString sr) (m.map trimString)]) := by
          unfold findSwap
          rw [h2]
        rw [hfind, List.find?_append] at hq'
        unfold findSwap at hq
        rw [hq] at hq'
        injection hq' with h3
        exact Or.inl (by rw [h3])
    | accept sid c => exact accept_edge st sid c id q q' hq hq'
    | reject sid c => exact reject_edge st sid c id q q' hq hq'
    | cancel sid c => exact cancel_edge st sid c id q q' hq hq'
    | complete sid c => exact complete_edge st sid c id q q' hq hq'
  · intro id q' hnone hq'
    cases op with
    | submit A B so sr m =>
      dsimp only [runOp] at hq'
      rcases submit_cases st A B so sr m with ⟨_, h2⟩ | ⟨_, h2⟩ | ⟨h2, _⟩
      · rw [h2, hnone] at hq'
        exact absurd hq' (by simp)
      · rw [h2, hnone] at hq'
        exact absurd hq' (by simp)
      · have hfind : findSwap (submit st A B so sr m).2 id =
            List.find? (fun r => r.id == id) (st.swaps ++
              [newSwapRow st A B (trimString so) (trimString sr) (m.map trimString)]) := by
          unfold findSwap
          rw [h2]
        rw [hfind, List.find?_append] at hq'
        unfold findSwap at hnone
        rw [hnone, Option.none_or] at hq'
        have hsing : ∀ x y : SwapRequest,
            List.find? (fun r => r.id == id) [x] = some y → y = x := by
          intro x y h
          rw [List.find?_cons] at h
          cases hc : (x.id == id) with
          | true =>
            rw [hc] at h
            injection h with h4
            exact h4.symm
          | false =>
            rw [hc] at h
            exact Option.noConfusion h
        have h4 := hsing _ q' hq'
        rw [h4]
        rfl
    | accept sid c =>
      dsimp only [runOp] at hq'
      rw [accept_none st sid c id hnone] at hq'
      exact absurd hq' (by simp)
    | reject sid c =>
      dsimp only [runOp] at hq'
      rw [reject_none st sid c id hnone] at hq'
      exact absurd hq' (by simp)
    | cancel sid c =>
      dsimp only [runOp] at hq'
      rw [cancel_none st sid c id hnone] at hq'
      exact absurd hq' (by simp)
    | complete sid c =>
      dsimp only [runOp] at hq'
      rw [complete_none st sid c id hnone] at hq'
      exact absurd hq' (by simp)
  · intro sid c tgt r hinfo hr hauth hedge
    cases op with
    | submit A B so sr m =>
      dsimp only [transitionInfo] at hinfo
      exact Option.noConfusion hinfo
    | accept sid0 c0 =>
      dsimp only [transitionInfo] at hinfo
      injection hinfo with h3
      injection h3 with h4 h5
      injection h5 with h5a h5b
      subst h4
      subst h5a
      subst h5b
      dsimp only [authorizedCaller] at hauth
      have hrecv : r.receiverId = c0 := beq_iff_eq.mp hauth
      have hstat : r.status ≠ Status.pending := by
        intro hp
        rw [hp] at hedge
        exact absurd hedge (by decide)
      have hg := acceptGuard_invalidState hr hrecv hstat
      dsimp only [runOp]
      rw [accept_of_guard_error hg]
      exact ⟨rfl, rfl⟩
    | reject sid0 c0 =>
      dsimp only [transitionInfo] at hinfo
      injection hinfo with h3
      injection h3 with h4 h5
      injection h5 with h5a h5b
      subst h4
      subst h5a
      subst h5b
      dsimp only [authorizedCaller] at hauth
      have hrecv : r.receiverId = c0 := beq_iff_eq.mp hauth
      have hstat : r.status ≠ Status.pending := by
        intro hp
        rw [hp] at hedge
        exact absurd hedge (by decide)
      have hg := rejectGuard_invalidState hr hrecv hstat
      dsimp only [runOp]
      rw [reject_of_guard_error hg]
      exact ⟨rfl, rfl⟩
    | cancel sid0 c0 =>
      dsimp only [transitionInfo] at hinfo
      injection hinfo with h3
      injection h3 with h4 h5
      injection h5 with h5a h5b
      subst h4
      subst h5a
      subst h5b
      dsimp only [authorizedCaller] at hauth
      have hsend : r.senderId = c0 := beq_iff_eq.mp hauth
      have hstat : r.status ≠ Status.pending := by
        intro hp
        rw [hp] at hedge
        exact absurd hedge (by decide)
      have hg := cancelGuard_invalidState hr hsend hstat
      dsimp only [runOp]
      rw [cancel_of_guard_error hg]
      exact ⟨rfl, rfl⟩
    | complete sid0 c0 =>
      dsimp only [transitionInfo] at hinfo
      injection hinfo with h3
      injection h3 with h4 h5
      injection h5 with h5a h5b
      subst h4
      subst h5a
      subst h5b
      dsimp only [authorizedCaller] at hauth
      have hpart : r.senderId = c0 ∨ r.receiverId = c0 := by
        simp only [Bool.or_eq_true, beq_iff_eq] at hauth
        exact hauth
      have hstat : r.status ≠ Status.accepted := by
        intro hp
        rw [hp] at hedge
        exact absurd hedge (by decide)
      have hg := completeGuard_invalidState hr hpart hstat
      dsimp only [runOp]
      rw [complete_of_guard_error hg]
      exact ⟨rfl, rfl⟩

/-- Witness for C1: accepting the REJECTED swap (id 12) of the sample store,
called by its receiver, fails with InvalidState and leaves the store
unchanged. -/
theorem c1_state_machine_witness :
    (runOp wStore (Op.accept 12 2)).1 = Except.error ApiErr.invalidState ∧
    (runOp wStore (Op.accept 12 2)).2 = wStore :=
  (c1_state_machine wStore (Op.accept 12 2)).2.2 12 2 Status.accepted
    { id := 12, senderId := 1, receiverId := 2, skillOffered := "Chess",
      skillRequested := "Baking", message := none, status := Status.rejected,
      createdAt := 0, updatedAt := 0, completedAt := none }
    rfl (by decide) (by decide) (by decide)

/-- C10: every lifecycle operation performs all of its guard checks before its
single persistence write, so whenever an operation returns InvalidArgument,
NotFound, Forbidden or InvalidState (any error other than the internal 500
raised only after the write when the live push fails), the entire store —
swap rows, notification rows and push log alike — is exactly as before: no
swap record is created or mutated and no notification is created. -/
theorem c10_guard_errors_leave_store_unchanged (st : Store) (op : Op) (e : ApiErr)
    (herr : (runOp st op).1 = Except.error e) (hint : e ≠ ApiErr.internal) :
    (runOp st op).2 = st := by
  cases op with
  | submit A B so sr m =>
    dsimp only [runOp] at herr ⊢
    rcases submit_cases st A B so sr m with ⟨_, h2⟩ | ⟨_, h2⟩ | ⟨_, h2⟩
    · exact h2
    · exact h2
    · rcases h2 with hok | hint2
      · rw [herr] at hok
        exact Except.noConfusion hok
      · rw [herr] at hint2
        injection hint2 with h3
        exact absurd h3 hint
  | accept sid c =>
    dsimp only [runOp] at herr ⊢
    cases hg : acceptGuard st sid c with
    | error e2 =>
      rw [accept_of_guard_error hg]
    | ok r =>
      rcases (accept_of_guard_ok hg).2 with hok | hint2
      · rw [herr] at hok
        exact Except.noConfusion hok
      · rw [herr] at hint2
        injection hint2 with h3
        exact absurd h3 hint
  | reject sid c =>
    dsimp only [runOp] at herr ⊢
    cases hg : rejectGuard st sid c with
    | error e2 =>
      rw [reject_of_guard_error hg]
    | ok r =>
      rcases (reject_of_guard_ok hg).2 with hok | hint2
      · rw [herr] at hok
        exact Except.noConfusion hok
      · rw [herr] at hint2
        injection hint2 with h3
        exact absurd h3 hint
  | cancel sid c =>
    dsimp only [runOp] at herr ⊢
    cases hg : cancelGuard st sid c with
    | error e2 =>
      rw [cancel_of_guard_error hg]
    | ok r =>
      rw [cancel_of_guard_ok hg] at herr
      exact Except.noConfusion herr
  | complete sid c =>
    dsimp only [runOp] at herr ⊢
    cases hg : completeGuard st sid c with
    | error e2 =>
      rw [complete_of_guard_error hg]
    | ok r =>
      rcases (complete_of_guard_ok hg).2 with hok | hint2
      · rw [herr] at hok
        exact Except.noConfusion hok
      · rw [herr] at hint2
        injection hint2 with h3
        exact absurd h3 hint

/-- Witness for C10: cancel of the PENDING swap (id 10) by the receiver (not
the sender) fails Forbidden and leaves the sample store untouched. -/
theorem c10_guard_errors_leave_store_unchanged_witness :
    (runOp wStore (Op.cancel 10 2)).2 = wStore :=
  c10_guard_errors_leave_store_unchanged wStore (Op.cancel 10 2) ApiErr.forbidden
    (by decide) (by decide)

end SkillSwap
